import Mathlib

/-!
Verification of the season-based name-registration engine in `src/src/lib.rs`
(an Internet Computer canister).  The canister's thread-local stores become an
explicit `RegistryState`; each `#[update]` method becomes a function
`State → Except String α × State`; the asynchronous external canister factory
(`create_domain_canister`) is passed in as an explicit `Except String Principal`
argument, since it is an external collaborator.  `HashMap`s become association
lists whose order stands for the (arbitrary) hash iteration order; `HashSet`s
become duplicate-free lists.  `u64` quantities (times, counts, prices) become
`Nat`: none of the arithmetic in the source can overflow at realistic values,
and no claim depends on wraparound.
-/

/-- Principals (caller identities, canister ids) are opaque; model them as `Nat`. -/
abbrev Principal := Nat

inductive SeasonStatus where
  | Active
  | Completed
  | Deactivated
deriving Repr, DecidableEq

inductive RegistrationMode where
  | Open
  | WhitelistOnly
  | Closed
deriving Repr, DecidableEq

inductive DomainStatus where
  | Active
  | Expired
  | Reserved
deriving Repr, DecidableEq

/-- `DomainRecord` from the source, field for field. -/
structure DomainRecord where
  owner : Principal
  administrator : Principal
  operator : Principal
  canister_id : Principal
  registration_time : Nat
  expiration_time : Nat
  last_payment_block : Nat
  custom_mcp_endpoint : Option String
  was_gifted : Bool
  registration_season_id : Option Nat
deriving Repr, DecidableEq

/-- `RegistrationSeason` from the source, field for field. -/
structure RegistrationSeason where
  season_id : Nat
  min_letters : Nat
  max_letters : Option Nat
  total_allowed : Nat
  registered_count : Nat
  price_icp : Nat
  created_by : Principal
  created_at : Nat
  status : SeasonStatus
deriving Repr, DecidableEq

structure RegistrationRequest where
  domain_name : String
  administrator : Principal
  operator : Principal
  payment_block : Nat
deriving Repr, DecidableEq

structure AdminGiftRequest where
  domain_name : String
  recipient : Principal
  administrator : Principal
  operator : Principal
deriving Repr, DecidableEq

structure AdminCreateDomainRequest where
  domain_name : String
  recipient : Principal
  administrator : Principal
  operator : Principal
  recipient_address : String
deriving Repr, DecidableEq

structure CreateSeasonRequest where
  min_letters : Nat
  max_letters : Option Nat
  total_allowed : Nat
  price_icp : Nat
deriving Repr, DecidableEq

/-- `DomainInfo` from the source (the view returned by `get_domain_info`). -/
structure DomainInfo where
  name : String
  owner : Principal
  administrator : Principal
  operator : Principal
  canister_id : Principal
  expiration_time : Nat
  mcp_endpoint : String
  status : DomainStatus
  was_gifted : Bool
deriving Repr, DecidableEq

/-- The canister's thread-local stores, gathered into one state record.
`DOMAIN_CANISTER_WASM` is omitted: it is dead weight for every operation
modelled here (only stored, never read). -/
structure RegistryState where
  domains : List (String × DomainRecord)
  reserved_names : List String
  admins : List Principal
  short_name_mode : RegistrationMode
  approved_short_users : List Principal
  base_fee : Nat
  seasons : List RegistrationSeason
  next_season_id : Nat
  wallet_to_domain : List (Principal × String)
  season_addresses : List (Nat × List String)
deriving Repr, DecidableEq

/-- One year in nanoseconds: `365 * 24 * 60 * 60 * 1_000_000_000`. -/
def yearNs : Nat := 365 * 24 * 60 * 60 * 1000000000

/-- e8s per ICP: `100_000_000`. -/
def e8sPerIcp : Nat := 100000000

/-! ## Association-list primitives (the `HashMap` / `HashSet` stores) -/

/-- `HashMap::get`: first entry with the given key. -/
def alistLookup {κ α : Type} [BEq κ] (k : κ) (l : List (κ × α)) : Option α :=
  (l.find? (fun p => p.1 == k)).map (fun p => p.2)

/-- `HashMap::insert`: replace the binding for the key, placing it at the head
(one admissible iteration order; no modelled observation depends on the
position of map entries within their list). -/
def alistInsert {κ α : Type} [BEq κ] (k : κ) (v : α) (l : List (κ × α)) :
    List (κ × α) :=
  (k, v) :: l.filter (fun p => p.1 != k)

/-- `HashMap::remove`. -/
def alistRemove {κ α : Type} [BEq κ] (k : κ) (l : List (κ × α)) : List (κ × α) :=
  l.filter (fun p => p.1 != k)

/-- `HashSet::insert` on a duplicate-free list. -/
def setInsert (p : Principal) (l : List Principal) : List Principal :=
  if l.contains p then l else p :: l

def strSetInsert (s : String) (l : List String) : List String :=
  if l.contains s then l else s :: l

/-! ## Validator and policy helpers (pure functions of the source) -/

/-- `is_valid_domain_name`: nonempty, length ≤ 63, no leading/trailing hyphen,
all characters alphanumeric or hyphen.  Rust's `starts_with('-')` /
`ends_with('-')` / `chars().all(..)` are expressed on the string's character
list (`String.data`), which is what they inspect. -/
def is_valid_domain_name (name : String) : Bool :=
  if name.isEmpty || name.length > 63 then false
  else if name.data.head? == some '-' || name.data.getLast? == some '-' then false
  else name.data.all (fun c => c.isAlphanum || c == '-')

def is_reserved_name (name : String) (st : RegistryState) : Bool :=
  st.reserved_names.contains name

def is_admin (caller : Principal) (st : RegistryState) : Bool :=
  st.admins.contains caller

/-- `can_register_short_domain`: length ≥ 5 always allowed; admins always
allowed; otherwise governed by the short-name mode. -/
def can_register_short_domain (name : String) (caller : Principal)
    (st : RegistryState) : Bool :=
  if name.length ≥ 5 then true
  else if is_admin caller st then true
  else match st.short_name_mode with
    | .Open => true
    | .WhitelistOnly => st.approved_short_users.contains caller
    | .Closed => false

def wallet_already_has_domain (wallet : Principal) (st : RegistryState) :
    Option String :=
  alistLookup wallet st.wallet_to_domain

def has_active_season (st : RegistryState) : Bool :=
  st.seasons.any (fun se => se.status == .Active)

/-- Eligibility filter of `find_applicable_season`: Active status, length within
`[min_letters, max_letters]` (no upper bound when absent), remaining capacity. -/
def seasonEligible (len : Nat) (se : RegistrationSeason) : Bool :=
  se.status == .Active &&
  len ≥ se.min_letters &&
  (match se.max_letters with
   | none => true
   | some m => len ≤ m) &&
  se.registered_count < se.total_allowed

/-- Rust's `Iterator::min_by_key`: the minimum, and on ties the FIRST element
in iteration order. -/
def minByPriceFirst : List RegistrationSeason → Option RegistrationSeason
  | [] => none
  | se :: rest =>
    match minByPriceFirst rest with
    | none => some se
    | some best => if se.price_icp ≤ best.price_icp then some se else some best

/-- `find_applicable_season`: the first minimum-price eligible season in
iteration order, together with its map key (which the source always keeps equal
to `season_id`). -/
def find_applicable_season (name : String) (st : RegistryState) :
    Option (Nat × RegistrationSeason) :=
  (minByPriceFirst (st.seasons.filter (seasonEligible name.length))).map
    (fun se => (se.season_id, se))

def calculate_registration_fee (name : String) (st : RegistryState) :
    Except String Nat :=
  match find_applicable_season name st with
  | some p => .ok (p.2.price_icp * e8sPerIcp)
  | none => .error "No available registration season for this domain length"

def calculate_renewal_fee (st : RegistryState) : Nat :=
  st.base_fee

/-- Availability check shared by `register_domain` / the gift paths /
`can_register_domain`: available when absent, or present with
`expiration_time < now` (strictly). -/
def domain_is_available (name : String) (now : Nat) (st : RegistryState) : Bool :=
  match alistLookup name st.domains with
  | some d => d.expiration_time < now
  | none => true

/-! ## Season mutation helpers

The `HashMap::get_mut` mutations of the source act on the (unique) entry with
the given key; on the association list they become a `map` with a pointwise
function that touches only entries with a matching `season_id`. -/

/-- `registered_count += 1` on the season with the given id. -/
def bumpF (id : Nat) (se : RegistrationSeason) : RegistrationSeason :=
  if se.season_id = id then { se with registered_count := se.registered_count + 1 }
  else se

/-- `registered_count -= 1` on the season with the given id (the reservation
rollback). -/
def decF (id : Nat) (se : RegistrationSeason) : RegistrationSeason :=
  if se.season_id = id then { se with registered_count := se.registered_count - 1 }
  else se

/-- Body of `complete_season_if_full`. -/
def completeF (id : Nat) (se : RegistrationSeason) : RegistrationSeason :=
  if se.season_id = id then
    (if se.total_allowed ≤ se.registered_count then { se with status := .Completed }
     else se)
  else se

/-- Body of `deactivate_season`'s mutation. -/
def deactF (id : Nat) (se : RegistrationSeason) : RegistrationSeason :=
  if se.season_id = id then { se with status := .Deactivated } else se

def bumpSeason (id : Nat) (st : RegistryState) : RegistryState :=
  { st with seasons := st.seasons.map (bumpF id) }

def decSeason (id : Nat) (st : RegistryState) : RegistryState :=
  { st with seasons := st.seasons.map (decF id) }

/-- `complete_season_if_full`: mark the season Completed when
`registered_count >= total_allowed`. -/
def complete_season_if_full (id : Nat) (st : RegistryState) : RegistryState :=
  { st with seasons := st.seasons.map (completeF id) }

def lookupSeason (id : Nat) (st : RegistryState) : Option RegistrationSeason :=
  st.seasons.find? (fun se => se.season_id == id)

/-- The first Active season in iteration order (`values().find(...)` of the
gift and admin-creation paths). -/
def findActiveSeason (st : RegistryState) : Option RegistrationSeason :=
  st.seasons.find? (fun se => se.status == .Active)

def is_address_in_season (id : Nat) (address : String) (st : RegistryState) : Bool :=
  match alistLookup id st.season_addresses with
  | some addrs => addrs.contains address
  | none => false

/-! ## register_domain -/

/-- Success payload of `register_domain`: the source formats the canister id and
the fee into its success message; we return the two components themselves. -/
structure RegOk where
  canister_id : Principal
  fee_e8s : Nat
deriving Repr, DecidableEq

/-- The source's `if let Some(id) = season_id { complete_season_if_full(id) }`. -/
def completeIfConsumed (sid : Option Nat) (st : RegistryState) : RegistryState :=
  match sid with
  | some id => complete_season_if_full id st
  | none => st

/-- The source's rollback `if let Some(id) = season_id { registered_count -= 1 }`
run when the canister factory fails. -/
def rollbackIfReserved (sid : Option Nat) (st : RegistryState) : RegistryState :=
  match sid with
  | some id => decSeason id st
  | none => st

/-- Tail of `register_domain` after admission checks and (for non-admins) slot
reservation: the provisioning call, the rollback on its failure, and on success
the record/index insertion plus the auto-completion re-check. -/
def registerFinish (req : RegistrationRequest) (caller : Principal) (now : Nat)
    (prov : Except String Principal) (isAdminCaller : Bool)
    (season_id : Option Nat) (fee : Nat) (st : RegistryState) :
    Except String RegOk × RegistryState :=
  match prov with
  | .error e => (.error e, rollbackIfReserved season_id st)
  | .ok cid =>
    let record : DomainRecord :=
      { owner := caller
        administrator := req.administrator
        operator := req.operator
        canister_id := cid
        registration_time := now
        expiration_time := now + yearNs
        last_payment_block := req.payment_block
        custom_mcp_endpoint := none
        was_gifted := isAdminCaller
        registration_season_id := season_id }
    let st2 : RegistryState :=
      { st with
        domains := alistInsert req.domain_name record st.domains
        wallet_to_domain := alistInsert caller req.domain_name st.wallet_to_domain }
    (.ok { canister_id := cid, fee_e8s := fee }, completeIfConsumed season_id st2)

/-- Slot reservation of `register_domain` (the re-read of the season map with
its defensive full/missing checks), then `registerFinish`. -/
def registerReserve (req : RegistrationRequest) (caller : Principal) (now : Nat)
    (prov : Except String Principal) (id : Nat) (fee : Nat) (st : RegistryState) :
    Except String RegOk × RegistryState :=
  match lookupSeason id st with
  | none => (.error "Season not found", st)
  | some se =>
    if se.total_allowed ≤ se.registered_count then
      (.error "Registration season is full", st)
    else
      registerFinish req caller now prov false (some id) fee (bumpSeason id st)

/-- `register_domain`.  `now` is the host time (`ic_cdk::api::time()`, constant
across one message execution), `prov` the outcome of the external
`create_domain_canister` call. -/
def register_domain (req : RegistrationRequest) (caller : Principal) (now : Nat)
    (prov : Except String Principal) (st : RegistryState) :
    Except String RegOk × RegistryState :=
  if is_valid_domain_name req.domain_name = false then
    (.error "Invalid domain name format", st)
  else if is_reserved_name req.domain_name st = true then
    (.error "Domain name is reserved", st)
  else if can_register_short_domain req.domain_name caller st = false then
    (.error "Short domain names require approval", st)
  else
    match (if is_admin caller st then none else wallet_already_has_domain caller st) with
    | some existing => (.error ("Wallet already owns domain: " ++ existing), st)
    | none =>
      if domain_is_available req.domain_name now st = false then
        (.error "Domain name is not available", st)
      else if is_admin caller st then
        registerFinish req caller now prov true none 0 st
      else
        match find_applicable_season req.domain_name st with
        | none => (.error "No available registration season for this domain length", st)
        | some (id, season) =>
          registerReserve req caller now prov id (season.price_icp * e8sPerIcp) st

/-! ## admin_gift_domain -/

/-- Tail of `admin_gift_domain` after its season capacity check: provisioning
(no rollback is needed here — the gift path mutates nothing before the call),
record/index insertion, unconditional count increment, auto-completion. -/
def giftFinish (req : AdminGiftRequest) (now : Nat)
    (prov : Except String Principal) (season_id : Option Nat)
    (st : RegistryState) : Except String RegOk × RegistryState :=
  match prov with
  | .error e => (.error e, st)
  | .ok cid =>
    let record : DomainRecord :=
      { owner := req.recipient
        administrator := req.administrator
        operator := req.operator
        canister_id := cid
        registration_time := now
        expiration_time := now + yearNs
        last_payment_block := 0
        custom_mcp_endpoint := none
        was_gifted := true
        registration_season_id := season_id }
    let st2 : RegistryState :=
      { st with
        domains := alistInsert req.domain_name record st.domains
        wallet_to_domain := alistInsert req.recipient req.domain_name st.wallet_to_domain }
    let st3 := match season_id with
      | some id => complete_season_if_full id (bumpSeason id st2)
      | none => st2
    (.ok { canister_id := cid, fee_e8s := 0 }, st3)

/-- `admin_gift_domain`. -/
def admin_gift_domain (req : AdminGiftRequest) (caller : Principal) (now : Nat)
    (prov : Except String Principal) (st : RegistryState) :
    Except String RegOk × RegistryState :=
  if is_admin caller st = false then
    (.error "Only admins can gift domains", st)
  else if is_valid_domain_name req.domain_name = false then
    (.error "Invalid domain name format", st)
  else if is_reserved_name req.domain_name st = true then
    (.error "Domain name is reserved", st)
  else if domain_is_available req.domain_name now st = false then
    (.error "Domain name is not available", st)
  else
    match wallet_already_has_domain req.recipient st with
    | some existing => (.error ("Recipient already owns domain: " ++ existing), st)
    | none =>
      match findActiveSeason st with
      | none => (.error "Cannot gift domain: no active season available", st)
      | some se =>
        if se.total_allowed ≤ se.registered_count then
          (.error "Cannot gift domain: active season is full", st)
        else
          giftFinish req now prov (some se.season_id) st

/-! ## admin_create_domain_with_address -/

/-- Tail of `admin_create_domain_with_address` after checks: as the gift tail
but with `was_gifted = false` and a mandatory season id. -/
def adminCreateFinish (req : AdminCreateDomainRequest) (now : Nat)
    (prov : Except String Principal) (season_id : Nat)
    (st : RegistryState) : Except String RegOk × RegistryState :=
  match prov with
  | .error e => (.error e, st)
  | .ok cid =>
    let record : DomainRecord :=
      { owner := req.recipient
        administrator := req.administrator
        operator := req.operator
        canister_id := cid
        registration_time := now
        expiration_time := now + yearNs
        last_payment_block := 0
        custom_mcp_endpoint := none
        was_gifted := false
        registration_season_id := some season_id }
    let st2 : RegistryState :=
      { st with
        domains := alistInsert req.domain_name record st.domains
        wallet_to_domain := alistInsert req.recipient req.domain_name st.wallet_to_domain }
    (.ok { canister_id := cid, fee_e8s := 0 },
     complete_season_if_full season_id (bumpSeason season_id st2))

/-- `admin_create_domain_with_address`. -/
def admin_create_domain_with_address (req : AdminCreateDomainRequest)
    (caller : Principal) (now : Nat) (prov : Except String Principal)
    (st : RegistryState) : Except String RegOk × RegistryState :=
  if is_admin caller st = false then
    (.error "Only admins can create domains with addresses", st)
  else if is_valid_domain_name req.domain_name = false then
    (.error "Invalid domain name format", st)
  else if is_reserved_name req.domain_name st = true then
    (.error "Domain name is reserved", st)
  else if domain_is_available req.domain_name now st = false then
    (.error "Domain name is not available", st)
  else
    match wallet_already_has_domain req.recipient st with
    | some existing => (.error ("Recipient already owns domain: " ++ existing), st)
    | none =>
      match findActiveSeason st with
      | none => (.error "Cannot create domain: no active season available", st)
      | some se =>
        if se.total_allowed ≤ se.registered_count then
          (.error "Cannot create domain: active season is full", st)
        else if is_address_in_season se.season_id req.recipient_address st = false then
          (.error ("Address '" ++ req.recipient_address ++
                   "' is not authorized for the current season"), st)
        else
          adminCreateFinish req now prov se.season_id st

/-! ## Remaining update operations -/

/-- `add_address_to_season` (reached through `admin_add_address_to_season`):
additions are accepted only while the season is Active. -/
def add_address_to_season (id : Nat) (address : String) (st : RegistryState) :
    Except String Unit × RegistryState :=
  match lookupSeason id st with
  | some se =>
    match se.status with
    | SeasonStatus.Active =>
      let prev := (alistLookup id st.season_addresses).getD []
      let addrs2 := alistInsert id (strSetInsert address prev) st.season_addresses
      (.ok (), { st with season_addresses := addrs2 })
    | SeasonStatus.Completed => (.error "Cannot add address to completed season", st)
    | SeasonStatus.Deactivated => (.error "Cannot add address to deactivated season", st)
  | none => (.error "Season not found", st)

def admin_add_address_to_season (id : Nat) (address : String) (caller : Principal)
    (st : RegistryState) : Except String Unit × RegistryState :=
  if is_admin caller st = false then
    (.error "Only admins can add addresses to seasons", st)
  else add_address_to_season id address st

/-- `renew_domain`: owner/administrator only; extends the expiration by one
year from its current value; records the payment block.  The renewal fee is
returned as a number (the source formats it into the success message). -/
def renew_domain (name : String) (payment_block : Nat) (caller : Principal)
    (st : RegistryState) : Except String Nat × RegistryState :=
  match alistLookup name st.domains with
  | none => (.error "Domain not found", st)
  | some record =>
    if caller ≠ record.owner ∧ caller ≠ record.administrator then
      (.error "Unauthorized", st)
    else
      let record2 := { record with
        expiration_time := record.expiration_time + yearNs
        last_payment_block := payment_block }
      ((if is_admin caller st then .ok 0 else .ok (calculate_renewal_fee st)),
       { st with domains := alistInsert name record2 st.domains })

/-- `set_custom_mcp_endpoint`: owner/administrator only; a present endpoint
must start with `https://` and be at most 200 characters. -/
def set_custom_mcp_endpoint (name : String) (endpoint : Option String)
    (caller : Principal) (st : RegistryState) :
    Except String Unit × RegistryState :=
  match alistLookup name st.domains with
  | none => (.error "Domain not found", st)
  | some record =>
    if caller ≠ record.owner ∧ caller ≠ record.administrator then
      (.error "Unauthorized", st)
    else
      match endpoint with
      | some e =>
        if (e.startsWith "https://") = false then
          (.error "Custom endpoint must use HTTPS", st)
        else if 200 < e.length then
          (.error "Custom endpoint too long", st)
        else
          let record2 := { record with custom_mcp_endpoint := some e }
          (.ok (), { st with domains := alistInsert name record2 st.domains })
      | none =>
        let record2 := { record with custom_mcp_endpoint := none }
        (.ok (), { st with domains := alistInsert name record2 st.domains })

def add_admin (p : Principal) (caller : Principal) (st : RegistryState) :
    Except String Unit × RegistryState :=
  if is_admin caller st = false then
    (.error "Only admins can add other admins", st)
  else (.ok (), { st with admins := setInsert p st.admins })

def remove_admin (p : Principal) (caller : Principal) (st : RegistryState) :
    Except String Unit × RegistryState :=
  if is_admin caller st = false then
    (.error "Only admins can remove other admins", st)
  else if st.admins.length ≤ 1 then
    (.error "Cannot remove the last admin", st)
  else (.ok (), { st with admins := st.admins.filter (fun q => q != p) })

def add_reserved_name (name : String) (caller : Principal) (st : RegistryState) :
    Except String Unit × RegistryState :=
  if is_admin caller st = false then
    (.error "Only admins can add reserved names", st)
  else (.ok (), { st with reserved_names := strSetInsert name st.reserved_names })

def approve_user_for_short_names (p : Principal) (caller : Principal)
    (st : RegistryState) : Except String Unit × RegistryState :=
  if is_admin caller st = false then
    (.error "Only admins can approve users for short names", st)
  else (.ok (), { st with approved_short_users := setInsert p st.approved_short_users })

def revoke_short_name_approval (p : Principal) (caller : Principal)
    (st : RegistryState) : Except String Unit × RegistryState :=
  if is_admin caller st = false then
    (.error "Only admins can revoke short name approvals", st)
  else (.ok (), { st with approved_short_users :=
    st.approved_short_users.filter (fun q => q != p) })

def set_short_name_mode (m : RegistrationMode) (caller : Principal)
    (st : RegistryState) : Except String Unit × RegistryState :=
  if is_admin caller st = false then
    (.error "Only admins can change short name mode", st)
  else (.ok (), { st with short_name_mode := m })

def set_base_fee (fee : Nat) (caller : Principal) (st : RegistryState) :
    Except String Unit × RegistryState :=
  if is_admin caller st = false then
    (.error "Only admins can set fees", st)
  else (.ok (), { st with base_fee := fee })

/-- `create_registration_season`: admin-only; parameter validation; rejected
while any season is Active; assigns `next_season_id` and bumps it.  The new
season is placed at the head of the list (one admissible hash-map order). -/
def create_registration_season (req : CreateSeasonRequest) (caller : Principal)
    (now : Nat) (st : RegistryState) : Except String Nat × RegistryState :=
  if is_admin caller st = false then
    (.error "Only admins can create registration seasons", st)
  else if req.min_letters = 0 ∨ 64 < req.min_letters then
    (.error "Min letters must be between 1 and 64", st)
  else if (match req.max_letters with
           | some m => decide (m < req.min_letters) || decide (64 < m)
           | none => false) = true then
    (.error "Max letters must be >= min letters and <= 64", st)
  else if req.total_allowed = 0 then
    (.error "Total allowed must be greater than 0", st)
  else if req.price_icp = 0 then
    (.error "Price must be greater than 0", st)
  else if has_active_season st = true then
    (.error "Cannot create new season: there is already an active season", st)
  else
    let sid := st.next_season_id
    let season : RegistrationSeason :=
      { season_id := sid
        min_letters := req.min_letters
        max_letters := req.max_letters
        total_allowed := req.total_allowed
        registered_count := 0
        price_icp := req.price_icp
        created_by := caller
        created_at := now
        status := .Active }
    (.ok sid, { st with seasons := season :: st.seasons, next_season_id := sid + 1 })

/-- `deactivate_season`: admin-only; sets the status of the named season to
Deactivated WITHOUT checking its current status. -/
def deactivate_season (id : Nat) (caller : Principal) (st : RegistryState) :
    Except String Unit × RegistryState :=
  if is_admin caller st = false then
    (.error "Only admins can deactivate seasons", st)
  else
    match lookupSeason id st with
    | none => (.error "Season not found", st)
    | some _ =>
      (.ok (), { st with seasons := st.seasons.map (deactF id) })

/-- `transfer_domain_ownership`: owner/administrator only; a non-admin new
owner must not already own a name; rewrites the record's owner and moves the
wallet-index entry keyed by the OLD owner. -/
def transfer_domain_ownership (name : String) (new_owner : Principal)
    (caller : Principal) (st : RegistryState) :
    Except String Unit × RegistryState :=
  match alistLookup name st.domains with
  | none => (.error "Domain not found", st)
  | some record =>
    if caller ≠ record.owner ∧ caller ≠ record.administrator then
      (.error "Unauthorized: only domain owner or administrator can transfer ownership", st)
    else
      match (if is_admin new_owner st then none else wallet_already_has_domain new_owner st) with
      | some existing => (.error ("New owner already owns domain: " ++ existing), st)
      | none =>
        let old_owner := record.owner
        (.ok (),
         { st with
           domains := alistInsert name { record with owner := new_owner } st.domains
           wallet_to_domain :=
             alistInsert new_owner name (alistRemove old_owner st.wallet_to_domain) })

/-! ## Queries -/

/-- `get_domain_info`: status is Active when `expiration_time > now`, else
Expired; the endpoint defaults to `https://mcp.ctx.xyz/<name>`. -/
def get_domain_info (name : String) (now : Nat) (st : RegistryState) :
    Option DomainInfo :=
  (alistLookup name st.domains).map (fun d =>
    { name := name
      owner := d.owner
      administrator := d.administrator
      operator := d.operator
      canister_id := d.canister_id
      expiration_time := d.expiration_time
      mcp_endpoint := d.custom_mcp_endpoint.getD ("https://mcp.ctx.xyz/" ++ name)
      status := if now < d.expiration_time then .Active else .Expired
      was_gifted := d.was_gifted })

/-- `get_registration_fee`: 0 for invalid or reserved names, otherwise the
season fee with errors collapsed to 0 (`unwrap_or(0)`). -/
def get_registration_fee (name : String) (st : RegistryState) : Nat :=
  if is_valid_domain_name name = false then 0
  else if is_reserved_name name st = true then 0
  else match calculate_registration_fee name st with
    | .ok fee => fee
    | .error _ => 0

def get_wallet_domain (wallet : Principal) (st : RegistryState) : Option String :=
  wallet_already_has_domain wallet st

/-! ## Initialization, operations, reachability -/

/-- `init(admin)`: one bootstrap admin, the fixed reserved-name list, default
short-name mode WhitelistOnly, base fee 1 ICP, season counter starting at 1. -/
def initState (admin : Principal) : RegistryState :=
  { domains := []
    reserved_names := ["icp", "api", "www", "admin", "root", "system",
                       "registry", "canister", "dfinity", "ic"]
    admins := [admin]
    short_name_mode := .WhitelistOnly
    approved_short_users := []
    base_fee := 100000000
    seasons := []
    next_season_id := 1
    wallet_to_domain := []
    season_addresses := [] }

/-- One external request to the canister, with its caller, the host time during
its execution, and (for provisioning operations) the factory outcome. -/
inductive Op where
  | register (req : RegistrationRequest) (caller : Principal) (now : Nat)
      (prov : Except String Principal)
  | adminGift (req : AdminGiftRequest) (caller : Principal) (now : Nat)
      (prov : Except String Principal)
  | adminCreate (req : AdminCreateDomainRequest) (caller : Principal) (now : Nat)
      (prov : Except String Principal)
  | addAddress (id : Nat) (address : String) (caller : Principal)
  | renew (name : String) (payment_block : Nat) (caller : Principal)
  | setEndpoint (name : String) (endpoint : Option String) (caller : Principal)
  | addAdmin (p : Principal) (caller : Principal)
  | removeAdmin (p : Principal) (caller : Principal)
  | addReserved (name : String) (caller : Principal)
  | approveShort (p : Principal) (caller : Principal)
  | revokeShort (p : Principal) (caller : Principal)
  | setMode (m : RegistrationMode) (caller : Principal)
  | setFee (fee : Nat) (caller : Principal)
  | createSeason (req : CreateSeasonRequest) (caller : Principal) (now : Nat)
  | deactivateSeason (id : Nat) (caller : Principal)
  | transfer (name : String) (new_owner : Principal) (caller : Principal)

/-- The state reached after one operation (queries change nothing and are not
steps). -/
def applyOp (op : Op) (st : RegistryState) : RegistryState :=
  match op with
  | .register req caller now prov => (register_domain req caller now prov st).2
  | .adminGift req caller now prov => (admin_gift_domain req caller now prov st).2
  | .adminCreate req caller now prov =>
      (admin_create_domain_with_address req caller now prov st).2
  | .addAddress id address caller => (admin_add_address_to_season id address caller st).2
  | .renew name pb caller => (renew_domain name pb caller st).2
  | .setEndpoint name e caller => (set_custom_mcp_endpoint name e caller st).2
  | .addAdmin p caller => (add_admin p caller st).2
  | .removeAdmin p caller => (remove_admin p caller st).2
  | .addReserved name caller => (add_reserved_name name caller st).2
  | .approveShort p caller => (approve_user_for_short_names p caller st).2
  | .revokeShort p caller => (revoke_short_name_approval p caller st).2
  | .setMode m caller => (set_short_name_mode m caller st).2
  | .setFee fee caller => (set_base_fee fee caller st).2
  | .createSeason req caller now => (create_registration_season req caller now st).2
  | .deactivateSeason id caller => (deactivate_season id caller st).2
  | .transfer name owner caller => (transfer_domain_ownership name owner caller st).2

/-- States reachable from initialization by any sequence of requests. -/
inductive Reachable : RegistryState → Prop where
  | init (admin : Principal) : Reachable (initState admin)
  | step (op : Op) (st : RegistryState) : Reachable st → Reachable (applyOp op st)

/-- Discriminator for the one operation that may create a season. -/
def isCreateSeasonOp : Op → Bool
  | .createSeason _ _ _ => true
  | _ => false

/-! ## Invariant definitions -/

/-- Number of seasons with status Active. -/
def activeCount (l : List RegistrationSeason) : Nat :=
  l.countP (fun se => se.status == SeasonStatus.Active)

/-- The season-ledger invariant maintained by every operation. -/
structure SeasonInv (st : RegistryState) : Prop where
  next_pos : 1 ≤ st.next_season_id
  ids_nodup : (st.seasons.map (fun se => se.season_id)).Nodup
  ids_range : ∀ se ∈ st.seasons, 1 ≤ se.season_id ∧ se.season_id < st.next_season_id
  one_active : activeCount st.seasons ≤ 1
  count_le : ∀ se ∈ st.seasons, se.registered_count ≤ se.total_allowed
  full_not_active : ∀ se ∈ st.seasons,
    se.registered_count = se.total_allowed → se.status ≠ SeasonStatus.Active

/-- Pointwise description of how one operation may rewrite the season list:
ids are preserved, no season becomes Active, Deactivated stays Deactivated,
Completed stays Completed or is deactivated, a season that ends up full was
already full or has just been marked Completed, and capacity bounds are
preserved. -/
structure StepFun (l : List RegistrationSeason)
    (f : RegistrationSeason → RegistrationSeason) : Prop where
  id_eq : ∀ se, (f se).season_id = se.season_id
  no_new_active : ∀ se ∈ l, (f se).status = SeasonStatus.Active →
    se.status = SeasonStatus.Active
  deact_stable : ∀ se ∈ l, se.status = SeasonStatus.Deactivated →
    (f se).status = SeasonStatus.Deactivated
  comp_stable : ∀ se ∈ l, se.status = SeasonStatus.Completed →
    (f se).status = SeasonStatus.Completed ∨ (f se).status = SeasonStatus.Deactivated
  full_comp : ∀ se ∈ l, (f se).registered_count = (f se).total_allowed →
    se.registered_count = se.total_allowed ∨ (f se).status = SeasonStatus.Completed
  count_le : ∀ se ∈ l, se.registered_count ≤ se.total_allowed →
    (f se).registered_count ≤ (f se).total_allowed

/-- An operation's effect on the season ledger is a pointwise rewrite with the
`StepFun` properties, leaving the id counter alone (true of every operation
except `create_registration_season`). -/
def SeasonStep (st st' : RegistryState) : Prop :=
  ∃ f, StepFun st.seasons f ∧ st'.seasons = st.seasons.map f ∧
    st'.next_season_id = st.next_season_id

/-- The wallet-index/record-store coupling asserted by the specification:
every index entry points at an existing record whose owner is that identity. -/
def WalletOwnerInv (st : RegistryState) : Prop :=
  ∀ w name, alistLookup w st.wallet_to_domain = some name →
    ∃ rec, alistLookup name st.domains = some rec ∧ rec.owner = w

/-! ## Concrete scenario states (used by witnesses and counterexamples) -/

def exReqHello : RegistrationRequest :=
  { domain_name := "hello", administrator := 3, operator := 4, payment_block := 5 }

def exReqAlice : RegistrationRequest :=
  { domain_name := "alice", administrator := 3, operator := 4, payment_block := 5 }

def exReqAlice2 : RegistrationRequest :=
  { domain_name := "alice", administrator := 3, operator := 4, payment_block := 6 }

def exSeasonCap1 : CreateSeasonRequest :=
  { min_letters := 1, max_letters := none, total_allowed := 1, price_icp := 7 }

def exSeasonCap10 : CreateSeasonRequest :=
  { min_letters := 1, max_letters := none, total_allowed := 10, price_icp := 7 }

/-- Admin 0 creates a capacity-1 season. -/
def exStSeason1 : RegistryState := applyOp (.createSeason exSeasonCap1 0 0) (initState 0)

/-- ... then user 1 registers "hello", filling the season: it auto-Completes. -/
def exStCompleted : RegistryState :=
  applyOp (.register exReqHello 1 10 (.ok 99)) exStSeason1

/-- Admin 0 creates a capacity-10 season. -/
def exStSeason10 : RegistryState := applyOp (.createSeason exSeasonCap10 0 0) (initState 0)

/-- ... user 1 registers "alice" at time 0 (expires at `yearNs`). -/
def exStAlice : RegistryState :=
  applyOp (.register exReqAlice 1 0 (.ok 99)) exStSeason10

/-- ... after expiry, user 2 re-registers "alice": user 1's wallet-index entry
goes stale. -/
def exStStale : RegistryState :=
  applyOp (.register exReqAlice2 2 (yearNs + 1) (.ok 98)) exStAlice

deriving instance DecidableEq for Except

/-- The single season of `exStSeason1` right after creation. -/
def exSeasonActive0 : RegistrationSeason :=
  { season_id := 1, min_letters := 1, max_letters := none, total_allowed := 1,
    registered_count := 0, price_icp := 7, created_by := 0, created_at := 0,
    status := .Active }

/-- The same season after the registration that filled it. -/
def exSeasonCompleted1 : RegistrationSeason :=
  { season_id := 1, min_letters := 1, max_letters := none, total_allowed := 1,
    registered_count := 1, price_icp := 7, created_by := 0, created_at := 0,
    status := .Completed }

/-- The record stored for "alice" in `exStAlice`. -/
def exRecAlice : DomainRecord :=
  { owner := 1, administrator := 3, operator := 4, canister_id := 99,
    registration_time := 0, expiration_time := yearNs, last_payment_block := 5,
    custom_mcp_endpoint := none, was_gifted := false, registration_season_id := some 1 }

/-- An Active season with unbounded length, capacity 10, given id and price. -/
def cexSeason (i price : Nat) : RegistrationSeason :=
  { season_id := i, min_letters := 1, max_letters := none, total_allowed := 10,
    registered_count := 0, price_icp := price, created_by := 0, created_at := 0,
    status := .Active }

/-- Two equally-priced eligible seasons, id 2 first in hash iteration order. -/
def stOrderA : RegistryState :=
  { initState 0 with seasons := [cexSeason 2 7, cexSeason 1 7], next_season_id := 3 }

/-- The same two seasons, id 1 first in hash iteration order. -/
def stOrderB : RegistryState :=
  { initState 0 with seasons := [cexSeason 1 7, cexSeason 2 7], next_season_id := 3 }

/-- The record built by a successful `register_domain` (abbreviation used in
statements; it is definitionally the literal constructed in `registerFinish`). -/
def regRecord (req : RegistrationRequest) (caller : Principal) (now : Nat)
    (cid : Principal) (gifted : Bool) (sid : Option Nat) : DomainRecord :=
  { owner := caller
    administrator := req.administrator
    operator := req.operator
    canister_id := cid
    registration_time := now
    expiration_time := now + yearNs
    last_payment_block := req.payment_block
    custom_mcp_endpoint := none
    was_gifted := gifted
    registration_season_id := sid }

/-! ## Lemmas: store primitives -/

theorem bumpF_season_id (id : Nat) (se : RegistrationSeason) :
    (bumpF id se).season_id = se.season_id := by
  unfold bumpF; split <;> rfl

theorem decF_season_id (id : Nat) (se : RegistrationSeason) :
    (decF id se).season_id = se.season_id := by
  unfold decF; split <;> rfl

theorem completeF_season_id (id : Nat) (se : RegistrationSeason) :
    (completeF id se).season_id = se.season_id := by
  unfold completeF; split <;> (try split) <;> rfl

theorem deactF_season_id (id : Nat) (se : RegistrationSeason) :
    (deactF id se).season_id = se.season_id := by
  unfold deactF; split <;> rfl

theorem decF_bumpF (id : Nat) (se : RegistrationSeason) :
    decF id (bumpF id se) = se := by
  cases se with
  | mk sid minl maxl tot cnt price cb ca stat =>
    unfold bumpF decF
    by_cases h : sid = id <;> simp [h]

theorem map_bump_dec (id : Nat) (l : List RegistrationSeason) :
    (l.map (bumpF id)).map (decF id) = l := by
  induction l with
  | nil => rfl
  | cons x xs ih =>
    simp only [List.map_cons]
    rw [decF_bumpF, ih]

theorem bump_dec_cancel (id : Nat) (st : RegistryState) :
    decSeason id (bumpSeason id st) = st := by
  show ({ st with seasons := (st.seasons.map (bumpF id)).map (decF id) } : RegistryState) = st
  rw [map_bump_dec]

theorem alistLookup_insert_self {κ α : Type} [BEq κ] [LawfulBEq κ]
    (k : κ) (v : α) (l : List (κ × α)) :
    alistLookup k (alistInsert k v l) = some v := by
  simp [alistLookup, alistInsert, List.find?_cons_of_pos]

theorem find?_filter_ne {κ α : Type} [BEq κ] [LawfulBEq κ]
    (k m : κ) (h : m ≠ k) (l : List (κ × α)) :
    (l.filter (fun p => p.1 != m)).find? (fun p => p.1 == k) =
      l.find? (fun p => p.1 == k) := by
  induction l with
  | nil => rfl
  | cons x xs ih =>
    rw [List.filter_cons]
    by_cases hxk : x.1 = k
    · have hkeep : (x.1 != m) = true := by
        rw [hxk]
        exact bne_iff_ne.mpr (Ne.symm h)
      have hpk : (x.1 == k) = true := by rw [hxk]; exact beq_self_eq_true k
      rw [if_pos hkeep,
        List.find?_cons_of_pos (p := fun (q : κ × α) => q.1 == k) _ hpk,
        List.find?_cons_of_pos (p := fun (q : κ × α) => q.1 == k) _ hpk]
    · have hpk : ¬ ((x.1 == k) = true) := by simp [hxk]
      by_cases hxm : x.1 = m
      · have hdrop : ¬ ((x.1 != m) = true) := by simp [hxm]
        rw [if_neg hdrop, ih, List.find?_cons_of_neg (p := fun (q : κ × α) => q.1 == k) _ hpk]
      · have hkeep : (x.1 != m) = true := bne_iff_ne.mpr hxm
        rw [if_pos hkeep,
          List.find?_cons_of_neg (p := fun (q : κ × α) => q.1 == k) _ hpk, ih,
          List.find?_cons_of_neg (p := fun (q : κ × α) => q.1 == k) _ hpk]

theorem alistLookup_insert_of_ne {κ α : Type} [BEq κ] [LawfulBEq κ]
    (k m : κ) (v : α) (l : List (κ × α)) (h : m ≠ k) :
    alistLookup k (alistInsert m v l) = alistLookup k l := by
  unfold alistLookup alistInsert
  rw [List.find?_cons_of_neg, find?_filter_ne k m h l]
  simp [h]

theorem alistLookup_insert_isSome {κ α : Type} [BEq κ] [LawfulBEq κ]
    (k m : κ) (v : α) (l : List (κ × α)) (h : (alistLookup k l).isSome = true) :
    (alistLookup k (alistInsert m v l)).isSome = true := by
  by_cases hkm : m = k
  · subst hkm; rw [alistLookup_insert_self]; rfl
  · rw [alistLookup_insert_of_ne k m v l hkm]; exact h

/-! ## Lemmas: season search -/

theorem minByPriceFirst_mem (l : List RegistrationSeason) (se : RegistrationSeason)
    (h : minByPriceFirst l = some se) : se ∈ l := by
  induction l generalizing se with
  | nil => simp [minByPriceFirst] at h
  | cons x xs ih =>
    unfold minByPriceFirst at h
    split at h
    · cases h
      exact List.mem_cons_self x xs
    · rename_i best hx
      split at h
      · cases h
        exact List.mem_cons_self _ _
      · cases h
        exact List.mem_cons_of_mem _ (ih _ hx)

theorem seasonEligible_spec (len : Nat) (se : RegistrationSeason)
    (h : seasonEligible len se = true) :
    se.status = SeasonStatus.Active ∧ se.registered_count < se.total_allowed := by
  unfold seasonEligible at h
  simp only [Bool.and_eq_true, beq_iff_eq, decide_eq_true_eq] at h
  exact ⟨h.1.1.1, h.2⟩

theorem find_applicable_spec (name : String) (st : RegistryState)
    (id : Nat) (se : RegistrationSeason)
    (h : find_applicable_season name st = some (id, se)) :
    se ∈ st.seasons ∧ se.season_id = id ∧ se.status = SeasonStatus.Active ∧
      se.registered_count < se.total_allowed := by
  unfold find_applicable_season at h
  cases hm : minByPriceFirst (st.seasons.filter (seasonEligible name.length)) with
  | none => rw [hm] at h; cases h
  | some se₀ =>
    rw [hm] at h
    cases h
    have hmem := minByPriceFirst_mem _ _ hm
    rw [List.mem_filter] at hmem
    have helig := seasonEligible_spec _ _ hmem.2
    exact ⟨hmem.1, rfl, helig.1, helig.2⟩

theorem findActiveSeason_spec (st : RegistryState) (se : RegistrationSeason)
    (h : findActiveSeason st = some se) :
    se ∈ st.seasons ∧ se.status = SeasonStatus.Active := by
  unfold findActiveSeason at h
  refine ⟨List.mem_of_find?_eq_some h, ?_⟩
  have h2 := List.find?_some (p := fun (q : RegistrationSeason) => q.status == SeasonStatus.Active) h
  simpa using h2

theorem lookupSeason_spec (id : Nat) (st : RegistryState) (se : RegistrationSeason)
    (h : lookupSeason id st = some se) :
    se ∈ st.seasons ∧ se.season_id = id := by
  unfold lookupSeason at h
  refine ⟨List.mem_of_find?_eq_some h, ?_⟩
  have h2 := List.find?_some (p := fun (q : RegistrationSeason) => q.season_id == id) h
  simpa using h2

theorem season_id_unique (l : List RegistrationSeason)
    (h : (l.map (fun se => se.season_id)).Nodup)
    (a b : RegistrationSeason) (ha : a ∈ l) (hb : b ∈ l)
    (hab : a.season_id = b.season_id) : a = b :=
  List.inj_on_of_nodup_map h ha hb hab

theorem lookupSeason_of_mem (st : RegistryState) (se : RegistrationSeason)
    (hnd : (st.seasons.map (fun se => se.season_id)).Nodup)
    (hmem : se ∈ st.seasons) :
    lookupSeason se.season_id st = some se := by
  cases hfind : lookupSeason se.season_id st with
  | none =>
    unfold lookupSeason at hfind
    rw [List.find?_eq_none] at hfind
    exact absurd (beq_self_eq_true se.season_id) (hfind se hmem)
  | some se' =>
    have hspec := lookupSeason_spec _ _ _ hfind
    have : se' = se := season_id_unique _ hnd se' se hspec.1 hmem (by rw [hspec.2])
    rw [this]

/-! ## Lemmas: pointwise season steps -/

theorem activeCount_map_le (f : RegistrationSeason → RegistrationSeason)
    (l : List RegistrationSeason)
    (hf : ∀ se ∈ l, (f se).status = SeasonStatus.Active →
      se.status = SeasonStatus.Active) :
    activeCount (l.map f) ≤ activeCount l := by
  unfold activeCount
  rw [List.countP_map]
  apply List.countP_mono_left
  intro x hx h
  simp only [Function.comp_apply, beq_iff_eq] at h ⊢
  exact hf x hx h

theorem stepFun_identity (l : List RegistrationSeason) :
    StepFun l (fun se => se) := by
  constructor <;> intro se <;> intros <;> simp_all

theorem seasonStep_refl (st st' : RegistryState)
    (hs : st'.seasons = st.seasons)
    (hn : st'.next_season_id = st.next_season_id) : SeasonStep st st' := by
  refine ⟨fun se => se, stepFun_identity _, ?_, hn⟩
  rw [hs]
  exact (List.map_id _).symm

theorem stepFun_deactF (l : List RegistrationSeason) (id : Nat) :
    StepFun l (deactF id) := by
  constructor
  · intro se
    exact deactF_season_id id se
  · intro se _ h
    unfold deactF at h
    by_cases hid : se.season_id = id
    · rw [if_pos hid] at h
      cases h
    · rwa [if_neg hid] at h
  · intro se _ h
    unfold deactF
    by_cases hid : se.season_id = id
    · rw [if_pos hid]
    · rw [if_neg hid]
      exact h
  · intro se _ h
    unfold deactF
    by_cases hid : se.season_id = id
    · rw [if_pos hid]
      right
      rfl
    · rw [if_neg hid]
      left
      exact h
  · intro se _ h
    unfold deactF at h
    left
    by_cases hid : se.season_id = id
    · rwa [if_pos hid] at h
    · rwa [if_neg hid] at h
  · intro se _ h
    unfold deactF
    by_cases hid : se.season_id = id
    · rwa [if_pos hid]
    · rwa [if_neg hid]

theorem bumpF_of_ne (id : Nat) (se : RegistrationSeason) (h : se.season_id ≠ id) :
    bumpF id se = se := by
  unfold bumpF
  rw [if_neg h]

theorem completeF_of_ne (id : Nat) (se : RegistrationSeason) (h : se.season_id ≠ id) :
    completeF id se = se := by
  unfold completeF
  rw [if_neg h]

/-- The season-ledger effect of a successful slot consumption
(`registered_count += 1` then `complete_season_if_full`) on the unique entry
with the given id, known to be Active with remaining capacity. -/
theorem stepFun_consume (l : List RegistrationSeason) (id : Nat)
    (se₀ : RegistrationSeason)
    (hnd : (l.map (fun se => se.season_id)).Nodup)
    (hmem : se₀ ∈ l) (hid : se₀.season_id = id)
    (hact : se₀.status = SeasonStatus.Active)
    (hcap : se₀.registered_count < se₀.total_allowed) :
    StepFun l (fun se => completeF id (bumpF id se)) := by
  have hunique : ∀ se ∈ l, se.season_id = id → se = se₀ := by
    intro se hse hsid
    exact season_id_unique l hnd se se₀ hse hmem (by rw [hsid, hid])
  have hcompute : ∀ se ∈ l, se.season_id = id →
      completeF id (bumpF id se) =
        (if se.total_allowed ≤ se.registered_count + 1 then
          { se with registered_count := se.registered_count + 1,
                    status := SeasonStatus.Completed }
         else { se with registered_count := se.registered_count + 1 }) := by
    intro se _ hsid
    unfold bumpF completeF
    rw [if_pos hsid]
    split
    · rfl
    · rfl
  constructor
  · intro se
    rw [completeF_season_id, bumpF_season_id]
  · intro se hse h
    by_cases hsid : se.season_id = id
    · rw [(hunique se hse hsid)]
      exact hact
    · rw [bumpF_of_ne id se hsid, completeF_of_ne id se hsid] at h
      exact h
  · intro se hse h
    by_cases hsid : se.season_id = id
    · rw [hunique se hse hsid, hact] at h
      cases h
    · rw [bumpF_of_ne id se hsid, completeF_of_ne id se hsid]
      exact h
  · intro se hse h
    by_cases hsid : se.season_id = id
    · rw [hunique se hse hsid, hact] at h
      cases h
    · rw [bumpF_of_ne id se hsid, completeF_of_ne id se hsid]
      left
      exact h
  · intro se hse h
    by_cases hsid : se.season_id = id
    · rw [hcompute se hse hsid] at h ⊢
      split at h
      · right
        split
        · rfl
        · rename_i hc hc2
          exact absurd h (by omega)
      · left
        simp only at h
        omega
    · rw [bumpF_of_ne id se hsid, completeF_of_ne id se hsid] at h ⊢
      left
      exact h
  · intro se hse h
    by_cases hsid : se.season_id = id
    · have hse0 := hunique se hse hsid
      subst hse0
      rw [hcompute se hse hsid]
      split
      · simp only
        omega
      · simp only
        omega
    · rw [bumpF_of_ne id se hsid, completeF_of_ne id se hsid]
      exact h

/-! ## Lemmas: invariant transport -/

theorem seasonInv_map (st st' : RegistryState) (hstep : SeasonStep st st')
    (inv : SeasonInv st) : SeasonInv st' := by
  obtain ⟨f, hsf, hs, hn⟩ := hstep
  constructor
  · rw [hn]
    exact inv.next_pos
  · rw [hs, List.map_map]
    have heq : st.seasons.map ((fun se => se.season_id) ∘ f) =
        st.seasons.map (fun se => se.season_id) :=
      List.map_congr_left (fun a _ => hsf.id_eq a)
    rw [heq]
    exact inv.ids_nodup
  · rw [hs, hn]
    intro se' hse'
    obtain ⟨se, hmem, rfl⟩ := List.mem_map.mp hse'
    rw [hsf.id_eq]
    exact inv.ids_range se hmem
  · rw [hs]
    exact le_trans (activeCount_map_le f _ hsf.no_new_active) inv.one_active
  · rw [hs]
    intro se' hse'
    obtain ⟨se, hmem, rfl⟩ := List.mem_map.mp hse'
    exact hsf.count_le se hmem (inv.count_le se hmem)
  · rw [hs]
    intro se' hse' hfull
    obtain ⟨se, hmem, rfl⟩ := List.mem_map.mp hse'
    rcases hsf.full_comp se hmem hfull with hone | htwo
    · intro hact
      exact (inv.full_not_active se hmem hone) (hsf.no_new_active se hmem hact)
    · rw [htwo]
      intro hc
      cases hc

theorem seasonInv_initState (admin : Principal) : SeasonInv (initState admin) := by
  constructor <;> simp [initState, activeCount]

/-- `create_registration_season` preserves the season invariant. -/
theorem seasonInv_create (req : CreateSeasonRequest) (caller : Principal)
    (now : Nat) (st : RegistryState) (inv : SeasonInv st) :
    SeasonInv (create_registration_season req caller now st).2 := by
  unfold create_registration_season
  split
  · exact inv
  · split
    · exact inv
    · split
      · exact inv
      · split
        · exact inv
        · split
          · exact inv
          · split
            · exact inv
            · rename_i hadm hmin hmax htot hprice hactive
              have hno : activeCount st.seasons = 0 := by
                unfold activeCount
                rw [List.countP_eq_zero]
                intro a ha
                have := (Bool.not_eq_true _).mpr (by
                  rw [Bool.eq_false_iff]
                  intro hcontra
                  exact hactive (by
                    unfold has_active_season
                    rw [List.any_eq_true]
                    exact ⟨a, ha, hcontra⟩))
                exact this
              constructor
              · simp only
                omega
              · simp only [List.map_cons]
                rw [List.nodup_cons]
                refine ⟨?_, inv.ids_nodup⟩
                intro hcontra
                obtain ⟨se, hmem, hid⟩ := List.mem_map.mp hcontra
                have := (inv.ids_range se hmem).2
                omega
              · simp only
                intro se hse
                rcases List.mem_cons.mp hse with hhd | htl
                · rw [hhd]
                  have := inv.next_pos
                  simp only
                  omega
                · have := inv.ids_range se htl
                  omega
              · simp only
                unfold activeCount
                rw [List.countP_cons_of_pos _ _ (by simp)]
                unfold activeCount at hno
                rw [hno]
              · simp only
                intro se hse
                rcases List.mem_cons.mp hse with hhd | htl
                · rw [hhd]
                  simp only
                  omega
                · exact inv.count_le se htl
              · simp only
                intro se hse
                rcases List.mem_cons.mp hse with hhd | htl
                · rw [hhd]
                  simp only
                  intro hzero
                  exact absurd hzero.symm htot
                · exact inv.full_not_active se htl

/-! ## Lemmas: each operation's effect on the season ledger -/

theorem seasonStep_register (req : RegistrationRequest) (caller : Principal)
    (now : Nat) (prov : Except String Principal) (st : RegistryState)
    (inv : SeasonInv st) :
    SeasonStep st (register_domain req caller now prov st).2 := by
  unfold register_domain
  split
  · exact seasonStep_refl _ _ rfl rfl
  · split
    · exact seasonStep_refl _ _ rfl rfl
    · split
      · exact seasonStep_refl _ _ rfl rfl
      · split
        · exact seasonStep_refl _ _ rfl rfl
        · split
          · exact seasonStep_refl _ _ rfl rfl
          · split
            · unfold registerFinish
              split
              · exact seasonStep_refl _ _ rfl rfl
              · exact seasonStep_refl _ _ rfl rfl
            · split
              · exact seasonStep_refl _ _ rfl rfl
              · rename_i sid season hfind
                unfold registerReserve
                split
                · exact seasonStep_refl _ _ rfl rfl
                · split
                  · exact seasonStep_refl _ _ rfl rfl
                  · unfold registerFinish
                    split
                    · refine seasonStep_refl _ _ ?_ ?_
                      · show (decSeason sid (bumpSeason sid st)).seasons = st.seasons
                        rw [bump_dec_cancel]
                      · show (decSeason sid (bumpSeason sid st)).next_season_id =
                          st.next_season_id
                        rw [bump_dec_cancel]
                    · obtain ⟨hmem, hid, hact, hcap⟩ := find_applicable_spec _ _ _ _ hfind
                      refine ⟨fun se => completeF sid (bumpF sid se),
                        stepFun_consume st.seasons sid season inv.ids_nodup
                          hmem hid hact hcap, ?_, rfl⟩
                      show (st.seasons.map (bumpF sid)).map (completeF sid) =
                        st.seasons.map (fun se => completeF sid (bumpF sid se))
                      rw [List.map_map]
                      rfl

theorem seasonStep_gift (req : AdminGiftRequest) (caller : Principal)
    (now : Nat) (prov : Except String Principal) (st : RegistryState)
    (inv : SeasonInv st) :
    SeasonStep st (admin_gift_domain req caller now prov st).2 := by
  unfold admin_gift_domain
  split
  · exact seasonStep_refl _ _ rfl rfl
  · split
    · exact seasonStep_refl _ _ rfl rfl
    · split
      · exact seasonStep_refl _ _ rfl rfl
      · split
        · exact seasonStep_refl _ _ rfl rfl
        · split
          · exact seasonStep_refl _ _ rfl rfl
          · split
            · exact seasonStep_refl _ _ rfl rfl
            · rename_i se hfindActive
              split
              · exact seasonStep_refl _ _ rfl rfl
              · rename_i hcap
                unfold giftFinish
                split
                · exact seasonStep_refl _ _ rfl rfl
                · have hspec := findActiveSeason_spec _ _ hfindActive
                  refine ⟨fun s => completeF se.season_id (bumpF se.season_id s),
                    stepFun_consume st.seasons se.season_id se inv.ids_nodup
                      hspec.1 rfl hspec.2 (by omega), ?_, rfl⟩
                  show (st.seasons.map (bumpF se.season_id)).map (completeF se.season_id) =
                    st.seasons.map (fun s => completeF se.season_id (bumpF se.season_id s))
                  rw [List.map_map]
                  rfl

theorem seasonStep_adminCreate (req : AdminCreateDomainRequest) (caller : Principal)
    (now : Nat) (prov : Except String Principal) (st : RegistryState)
    (inv : SeasonInv st) :
    SeasonStep st (admin_create_domain_with_address req caller now prov st).2 := by
  unfold admin_create_domain_with_address
  split
  · exact seasonStep_refl _ _ rfl rfl
  · split
    · exact seasonStep_refl _ _ rfl rfl
    · split
      · exact seasonStep_refl _ _ rfl rfl
      · split
        · exact seasonStep_refl _ _ rfl rfl
        · split
          · exact seasonStep_refl _ _ rfl rfl
          · split
            · exact seasonStep_refl _ _ rfl rfl
            · rename_i se hfindActive
              split
              · exact seasonStep_refl _ _ rfl rfl
              · rename_i hcap
                split
                · exact seasonStep_refl _ _ rfl rfl
                · unfold adminCreateFinish
                  split
                  · exact seasonStep_refl _ _ rfl rfl
                  · have hspec := findActiveSeason_spec _ _ hfindActive
                    refine ⟨fun s => completeF se.season_id (bumpF se.season_id s),
                      stepFun_consume st.seasons se.season_id se inv.ids_nodup
                        hspec.1 rfl hspec.2 (by omega), ?_, rfl⟩
                    show (st.seasons.map (bumpF se.season_id)).map (completeF se.season_id) =
                      st.seasons.map (fun s => completeF se.season_id (bumpF se.season_id s))
                    rw [List.map_map]
                    rfl

theorem seasonStep_deactivate (id : Nat) (caller : Principal) (st : RegistryState) :
    SeasonStep st (deactivate_season id caller st).2 := by
  unfold deactivate_season
  split
  · exact seasonStep_refl _ _ rfl rfl
  · split
    · exact seasonStep_refl _ _ rfl rfl
    · exact ⟨deactF id, stepFun_deactF _ id, rfl, rfl⟩

theorem seasonStep_addAddress (id : Nat) (address : String) (caller : Principal)
    (st : RegistryState) :
    SeasonStep st (admin_add_address_to_season id address caller st).2 := by
  unfold admin_add_address_to_season add_address_to_season
  repeat' split
  all_goals exact seasonStep_refl _ _ rfl rfl

theorem seasonStep_renew (name : String) (pb : Nat) (caller : Principal)
    (st : RegistryState) :
    SeasonStep st (renew_domain name pb caller st).2 := by
  unfold renew_domain
  repeat' split
  all_goals exact seasonStep_refl _ _ rfl rfl

theorem seasonStep_setEndpoint (name : String) (e : Option String)
    (caller : Principal) (st : RegistryState) :
    SeasonStep st (set_custom_mcp_endpoint name e caller st).2 := by
  unfold set_custom_mcp_endpoint
  repeat' split
  all_goals exact seasonStep_refl _ _ rfl rfl

theorem seasonStep_addAdmin (p : Principal) (caller : Principal) (st : RegistryState) :
    SeasonStep st (add_admin p caller st).2 := by
  unfold add_admin
  repeat' split
  all_goals exact seasonStep_refl _ _ rfl rfl

theorem seasonStep_removeAdmin (p : Principal) (caller : Principal) (st : RegistryState) :
    SeasonStep st (remove_admin p caller st).2 := by
  unfold remove_admin
  repeat' split
  all_goals exact seasonStep_refl _ _ rfl rfl

theorem seasonStep_addReserved (name : String) (caller : Principal) (st : RegistryState) :
    SeasonStep st (add_reserved_name name caller st).2 := by
  unfold add_reserved_name
  repeat' split
  all_goals exact seasonStep_refl _ _ rfl rfl

theorem seasonStep_approveShort (p : Principal) (caller : Principal) (st : RegistryState) :
    SeasonStep st (approve_user_for_short_names p caller st).2 := by
  unfold approve_user_for_short_names
  repeat' split
  all_goals exact seasonStep_refl _ _ rfl rfl

theorem seasonStep_revokeShort (p : Principal) (caller : Principal) (st : RegistryState) :
    SeasonStep st (revoke_short_name_approval p caller st).2 := by
  unfold revoke_short_name_approval
  repeat' split
  all_goals exact seasonStep_refl _ _ rfl rfl

theorem seasonStep_setMode (m : RegistrationMode) (caller : Principal) (st : RegistryState) :
    SeasonStep st (set_short_name_mode m caller st).2 := by
  unfold set_short_name_mode
  repeat' split
  all_goals exact seasonStep_refl _ _ rfl rfl

theorem seasonStep_setFee (fee : Nat) (caller : Principal) (st : RegistryState) :
    SeasonStep st (set_base_fee fee caller st).2 := by
  unfold set_base_fee
  repeat' split
  all_goals exact seasonStep_refl _ _ rfl rfl

theorem seasonStep_transfer (name : String) (new_owner : Principal)
    (caller : Principal) (st : RegistryState) :
    SeasonStep st (transfer_domain_ownership name new_owner caller st).2 := by
  unfold transfer_domain_ownership
  repeat' split
  all_goals exact seasonStep_refl _ _ rfl rfl

/-- Every reachable state satisfies the season-ledger invariant. -/
theorem reachable_seasonInv (st : RegistryState) (h : Reachable st) : SeasonInv st := by
  induction h with
  | init admin => exact seasonInv_initState admin
  | step op s hre ih =>
    cases op with
    | register req caller now prov =>
      exact seasonInv_map _ _ (seasonStep_register req caller now prov s ih) ih
    | adminGift req caller now prov =>
      exact seasonInv_map _ _ (seasonStep_gift req caller now prov s ih) ih
    | adminCreate req caller now prov =>
      exact seasonInv_map _ _ (seasonStep_adminCreate req caller now prov s ih) ih
    | addAddress id address caller =>
      exact seasonInv_map _ _ (seasonStep_addAddress id address caller s) ih
    | renew name pb caller =>
      exact seasonInv_map _ _ (seasonStep_renew name pb caller s) ih
    | setEndpoint name e caller =>
      exact seasonInv_map _ _ (seasonStep_setEndpoint name e caller s) ih
    | addAdmin p caller =>
      exact seasonInv_map _ _ (seasonStep_addAdmin p caller s) ih
    | removeAdmin p caller =>
      exact seasonInv_map _ _ (seasonStep_removeAdmin p caller s) ih
    | addReserved name caller =>
      exact seasonInv_map _ _ (seasonStep_addReserved name caller s) ih
    | approveShort p caller =>
      exact seasonInv_map _ _ (seasonStep_approveShort p caller s) ih
    | revokeShort p caller =>
      exact seasonInv_map _ _ (seasonStep_revokeShort p caller s) ih
    | setMode m caller =>
      exact seasonInv_map _ _ (seasonStep_setMode m caller s) ih
    | setFee fee caller =>
      exact seasonInv_map _ _ (seasonStep_setFee fee caller s) ih
    | createSeason req caller now =>
      exact seasonInv_create req caller now s ih
    | deactivateSeason id caller =>
      exact seasonInv_map _ _ (seasonStep_deactivate id caller s) ih
    | transfer name owner caller =>
      exact seasonInv_map _ _ (seasonStep_transfer name owner caller s) ih

/-- Every operation other than `create_registration_season` rewrites the season
ledger pointwise in the `StepFun` sense. -/
theorem seasonStep_applyOp (op : Op) (st : RegistryState) (inv : SeasonInv st)
    (hop : isCreateSeasonOp op = false) : SeasonStep st (applyOp op st) := by
  cases op with
  | register req caller now prov => exact seasonStep_register req caller now prov st inv
  | adminGift req caller now prov => exact seasonStep_gift req caller now prov st inv
  | adminCreate req caller now prov => exact seasonStep_adminCreate req caller now prov st inv
  | addAddress id address caller => exact seasonStep_addAddress id address caller st
  | renew name pb caller => exact seasonStep_renew name pb caller st
  | setEndpoint name e caller => exact seasonStep_setEndpoint name e caller st
  | addAdmin p caller => exact seasonStep_addAdmin p caller st
  | removeAdmin p caller => exact seasonStep_removeAdmin p caller st
  | addReserved name caller => exact seasonStep_addReserved name caller st
  | approveShort p caller => exact seasonStep_approveShort p caller st
  | revokeShort p caller => exact seasonStep_revokeShort p caller st
  | setMode m caller => exact seasonStep_setMode m caller st
  | setFee fee caller => exact seasonStep_setFee fee caller st
  | createSeason req caller now => simp [isCreateSeasonOp] at hop
  | deactivateSeason id caller => exact seasonStep_deactivate id caller st
  | transfer name owner caller => exact seasonStep_transfer name owner caller st

theorem find?_map_season (f : RegistrationSeason → RegistrationSeason)
    (hid : ∀ se, (f se).season_id = se.season_id) (id : Nat)
    (l : List RegistrationSeason) :
    (l.map f).find? (fun se => se.season_id == id) =
      (l.find? (fun se => se.season_id == id)).map f := by
  induction l with
  | nil => rfl
  | cons x xs ih =>
    by_cases hx : x.season_id = id
    · have h1 : ((f x).season_id == id) = true := by
        rw [hid, hx]
        exact beq_self_eq_true id
      have h2 : (x.season_id == id) = true := by
        rw [hx]
        exact beq_self_eq_true id
      simp only [List.map_cons]
      rw [List.find?_cons_of_pos (p := fun (se : RegistrationSeason) => se.season_id == id) _ h1,
        List.find?_cons_of_pos (p := fun (se : RegistrationSeason) => se.season_id == id) _ h2]
      rfl
    · have h1 : ¬ (((f x).season_id == id) = true) := by
        rw [hid]
        simp [hx]
      have h2 : ¬ ((x.season_id == id) = true) := by simp [hx]
      simp only [List.map_cons]
      rw [List.find?_cons_of_neg (p := fun (se : RegistrationSeason) => se.season_id == id) _ h1,
        List.find?_cons_of_neg (p := fun (se : RegistrationSeason) => se.season_id == id) _ h2, ih]

/-- How a season found before a non-creating operation relates to the same id
after it. -/
theorem lookupSeason_step (st st' : RegistryState) (h : SeasonStep st st')
    (id : Nat) (se : RegistrationSeason) (hlk : lookupSeason id st = some se) :
    ∃ f, StepFun st.seasons f ∧ lookupSeason id st' = some (f se) := by
  obtain ⟨f, hsf, hs, _⟩ := h
  refine ⟨f, hsf, ?_⟩
  unfold lookupSeason at hlk ⊢
  rw [hs, find?_map_season f hsf.id_eq, hlk]
  rfl

/-- Records are never deleted: a name present in the store stays present after
any operation (C8's "remains present in storage until overwritten"). -/
theorem domains_preserved (op : Op) (st : RegistryState) (name : String)
    (h : (alistLookup name st.domains).isSome = true) :
    (alistLookup name (applyOp op st).domains).isSome = true := by
  cases op with
  | register req caller now prov =>
    simp only [applyOp]
    unfold register_domain registerReserve registerFinish
    repeat' split
    all_goals first
      | exact h
      | exact alistLookup_insert_isSome _ _ _ _ h
  | adminGift req caller now prov =>
    simp only [applyOp]
    unfold admin_gift_domain giftFinish
    repeat' split
    all_goals first
      | exact h
      | exact alistLookup_insert_isSome _ _ _ _ h
  | adminCreate req caller now prov =>
    simp only [applyOp]
    unfold admin_create_domain_with_address adminCreateFinish
    repeat' split
    all_goals first
      | exact h
      | exact alistLookup_insert_isSome _ _ _ _ h
  | addAddress id address caller =>
    simp only [applyOp]
    unfold admin_add_address_to_season add_address_to_season
    repeat' split
    all_goals exact h
  | renew nm pb caller =>
    simp only [applyOp]
    unfold renew_domain
    repeat' split
    all_goals first
      | exact h
      | exact alistLookup_insert_isSome _ _ _ _ h
  | setEndpoint nm e caller =>
    simp only [applyOp]
    unfold set_custom_mcp_endpoint
    repeat' split
    all_goals first
      | exact h
      | exact alistLookup_insert_isSome _ _ _ _ h
  | addAdmin p caller =>
    simp only [applyOp]
    unfold add_admin
    repeat' split
    all_goals exact h
  | removeAdmin p caller =>
    simp only [applyOp]
    unfold remove_admin
    repeat' split
    all_goals exact h
  | addReserved nm caller =>
    simp only [applyOp]
    unfold add_reserved_name
    repeat' split
    all_goals exact h
  | approveShort p caller =>
    simp only [applyOp]
    unfold approve_user_for_short_names
    repeat' split
    all_goals exact h
  | revokeShort p caller =>
    simp only [applyOp]
    unfold revoke_short_name_approval
    repeat' split
    all_goals exact h
  | setMode m caller =>
    simp only [applyOp]
    unfold set_short_name_mode
    repeat' split
    all_goals exact h
  | setFee fee caller =>
    simp only [applyOp]
    unfold set_base_fee
    repeat' split
    all_goals exact h
  | createSeason req caller now =>
    simp only [applyOp]
    unfold create_registration_season
    repeat' split
    all_goals exact h
  | deactivateSeason id caller =>
    simp only [applyOp]
    unfold deactivate_season
    repeat' split
    all_goals exact h
  | transfer nm owner caller =>
    simp only [applyOp]
    unfold transfer_domain_ownership
    repeat' split
    all_goals first
      | exact h
      | exact alistLookup_insert_isSome _ _ _ _ h

/-! ## Lemmas: register_domain branch analysis -/

theorem admin_short_ok (name : String) (caller : Principal) (st : RegistryState)
    (h : is_admin caller st = true) :
    can_register_short_domain name caller st = true := by
  unfold can_register_short_domain
  split
  · rfl
  · simp [h]

theorem rollback_bump_cancel (id : Nat) (st : RegistryState) :
    rollbackIfReserved (some id) (bumpSeason id st) = st :=
  bump_dec_cancel id st

theorem register_error_state (req : RegistrationRequest) (caller : Principal)
    (now : Nat) (prov : Except String Principal) (st : RegistryState)
    (e : String) :
    (register_domain req caller now prov st).1 = .error e →
    (register_domain req caller now prov st).2 = st := by
  unfold register_domain registerReserve registerFinish
  repeat' split
  all_goals intro h
  all_goals first
    | rfl
    | exact rollback_bump_cancel _ _
    | simp at h

/-- Shape of every successful `register_domain`: the provisioning succeeded,
the returned record is the fresh one, the wallet index gained the caller's
entry, and the season ledger is untouched (admin) or has the consumed season
bumped and auto-completion re-checked (non-admin). -/
theorem register_ok_shape (req : RegistrationRequest) (caller : Principal)
    (now : Nat) (prov : Except String Principal) (st : RegistryState)
    (r : RegOk) (st' : RegistryState)
    (h : register_domain req caller now prov st = (.ok r, st')) :
    ∃ cid sid,
      prov = .ok cid ∧
      r.canister_id = cid ∧
      st'.domains =
        alistInsert req.domain_name (regRecord req caller now cid (is_admin caller st) sid)
          st.domains ∧
      st'.wallet_to_domain = alistInsert caller req.domain_name st.wallet_to_domain ∧
      ((is_admin caller st = true ∧ sid = none ∧ r.fee_e8s = 0 ∧
          st'.seasons = st.seasons) ∨
        (is_admin caller st = false ∧ ∃ i, sid = some i ∧
          st'.seasons = (st.seasons.map (bumpF i)).map (completeF i))) := by
  unfold register_domain registerReserve registerFinish at h
  repeat' split at h
  all_goals first
    | exact Except.noConfusion (congrArg Prod.fst h)
    | skip
  · -- admin success branch
    rename_i cid
    have hadm : is_admin caller st = true := by assumption
    rw [Prod.mk.injEq] at h
    obtain ⟨hr, hst⟩ := h
    cases hr
    subst hst
    refine ⟨cid, none, rfl, rfl, ?_, rfl, Or.inl ⟨hadm, rfl, rfl, rfl⟩⟩
    rw [hadm]
    rfl
  · -- non-admin success branch
    rename_i cid
    have hadmF : is_admin caller st = false := by
      have hne : ¬ is_admin caller st = true := by assumption
      revert hne
      cases is_admin caller st <;> simp
    rw [Prod.mk.injEq] at h
    obtain ⟨hr, hst⟩ := h
    cases hr
    subst hst
    refine ⟨cid, _, rfl, rfl, ?_, rfl, Or.inr ⟨hadmF, _, rfl, rfl⟩⟩
    rw [hadmF]
    try rfl

/-- Explicit outcome of an admin self-registration: success with fee 0, a
gifted record with no season id, and no season mutation. -/
theorem register_admin_ok (req : RegistrationRequest) (caller : Principal)
    (now : Nat) (cid : Principal) (st : RegistryState)
    (hadm : is_admin caller st = true)
    (hvalid : is_valid_domain_name req.domain_name = true)
    (hres : is_reserved_name req.domain_name st = false)
    (havail : domain_is_available req.domain_name now st = true) :
    register_domain req caller now (.ok cid) st =
      (.ok { canister_id := cid, fee_e8s := 0 },
       { st with
         domains :=
           alistInsert req.domain_name (regRecord req caller now cid true none) st.domains
         wallet_to_domain := alistInsert caller req.domain_name st.wallet_to_domain }) := by
  unfold register_domain
  rw [if_neg (by rw [hvalid]; simp)]
  rw [if_neg (by rw [hres]; simp)]
  rw [if_neg (by rw [admin_short_ok req.domain_name caller st hadm]; simp)]
  rw [show (if is_admin caller st = true then none
      else wallet_already_has_domain caller st) = none from by rw [hadm]; simp]
  rw [if_neg (by rw [havail]; simp)]
  rw [if_pos hadm]
  rfl

/-- Explicit outcome of a successful non-admin registration through an
applicable season with capacity. -/
theorem register_nonadmin_ok (req : RegistrationRequest) (caller : Principal)
    (now : Nat) (cid : Principal) (st : RegistryState) (sid : Nat)
    (season : RegistrationSeason)
    (hadm : is_admin caller st = false)
    (hvalid : is_valid_domain_name req.domain_name = true)
    (hres : is_reserved_name req.domain_name st = false)
    (hshort : can_register_short_domain req.domain_name caller st = true)
    (hwallet : wallet_already_has_domain caller st = none)
    (havail : domain_is_available req.domain_name now st = true)
    (hfind : find_applicable_season req.domain_name st = some (sid, season))
    (hlook : lookupSeason sid st = some season)
    (hcap : season.registered_count < season.total_allowed) :
    register_domain req caller now (.ok cid) st =
      (.ok { canister_id := cid, fee_e8s := season.price_icp * e8sPerIcp },
       completeIfConsumed (some sid)
         { st with
           seasons := st.seasons.map (bumpF sid)
           domains := alistInsert req.domain_name
             (regRecord req caller now cid false (some sid)) st.domains
           wallet_to_domain := alistInsert caller req.domain_name st.wallet_to_domain }) := by
  unfold register_domain
  rw [if_neg (by rw [hvalid]; simp)]
  rw [if_neg (by rw [hres]; simp)]
  rw [if_neg (by rw [hshort]; simp)]
  rw [show (if is_admin caller st = true then none
      else wallet_already_has_domain caller st) = none from by rw [hadm]; simp [hwallet]]
  rw [if_neg (by rw [havail]; simp)]
  rw [if_neg (by rw [hadm]; simp)]
  rw [hfind]
  show registerReserve req caller now (.ok cid) sid (season.price_icp * e8sPerIcp) st = _
  unfold registerReserve
  rw [hlook]
  show (if season.total_allowed ≤ season.registered_count then
      ((Except.error "Registration season is full", st) : Except String RegOk × RegistryState)
    else registerFinish req caller now (Except.ok cid) false (some sid)
      (season.price_icp * e8sPerIcp) (bumpSeason sid st)) = _
  rw [if_neg (by omega)]
  rfl

/-! ## Lemmas: create_registration_season branch analysis -/

theorem create_rejects_when_active (req : CreateSeasonRequest) (caller : Principal)
    (now : Nat) (st : RegistryState) (h : has_active_season st = true) :
    (∀ v, (create_registration_season req caller now st).1 ≠ .ok v) ∧
    (create_registration_season req caller now st).2 = st := by
  unfold create_registration_season
  repeat' split
  all_goals exact ⟨fun v hv => Except.noConfusion hv, rfl⟩

theorem create_ok_id (req : CreateSeasonRequest) (caller : Principal)
    (now : Nat) (st : RegistryState) (v : Nat) :
    (create_registration_season req caller now st).1 = .ok v →
    v = st.next_season_id ∧
    (create_registration_season req caller now st).2.next_season_id = v + 1 := by
  unfold create_registration_season
  repeat' split
  all_goals intro h
  all_goals first
    | exact Except.noConfusion h
    | (simp only [Except.ok.injEq] at h
       subst h
       exact ⟨rfl, rfl⟩)

theorem lookupSeason_create (req : CreateSeasonRequest) (caller : Principal)
    (now : Nat) (st : RegistryState) (inv : SeasonInv st) (id : Nat)
    (se : RegistrationSeason) (h1 : lookupSeason id st = some se) :
    lookupSeason id (create_registration_season req caller now st).2 = some se := by
  have hspec := lookupSeason_spec id st se h1
  have hrange := (inv.ids_range se hspec.1).2
  have hid := hspec.2
  unfold create_registration_season
  repeat' split
  all_goals try exact h1
  have hne : ¬ ((st.next_season_id == id) = true) := by
    simp only [beq_iff_eq]
    omega
  show List.find? (fun s => s.season_id == id)
      ({ season_id := st.next_season_id, min_letters := req.min_letters,
         max_letters := req.max_letters, total_allowed := req.total_allowed,
         registered_count := 0, price_icp := req.price_icp, created_by := caller,
         created_at := now, status := .Active } :: st.seasons) = some se
  rw [List.find?_cons_of_neg
    (p := fun (s : RegistrationSeason) => s.season_id == id) _ hne]
  exact h1

/-- Core status-transition fact behind the lifecycle claims: how the season
found under an id before an operation relates to the one found after it. -/
theorem lookup_step_status (st : RegistryState) (op : Op) (id : Nat)
    (se se' : RegistrationSeason) (hr : Reachable st)
    (h1 : lookupSeason id st = some se)
    (h2 : lookupSeason id (applyOp op st) = some se') :
    (se'.status = se.status ∨ se'.status = SeasonStatus.Completed ∨
      se'.status = SeasonStatus.Deactivated) ∧
    (se.status = SeasonStatus.Deactivated → se'.status = SeasonStatus.Deactivated) ∧
    (se.status = SeasonStatus.Completed → se'.status = SeasonStatus.Completed ∨
      se'.status = SeasonStatus.Deactivated) ∧
    (se'.status = SeasonStatus.Active → se.status = SeasonStatus.Active) ∧
    (se.registered_count < se.total_allowed →
      se'.registered_count = se'.total_allowed →
      se'.status = SeasonStatus.Completed) := by
  have inv := reachable_seasonInv st hr
  by_cases hop : isCreateSeasonOp op = true
  · obtain ⟨req, caller, now, rfl⟩ :
        ∃ req caller now, op = Op.createSeason req caller now := by
      cases op <;> simp only [isCreateSeasonOp] at hop <;>
        first
          | exact ⟨_, _, _, rfl⟩
          | cases hop
    have hunch := lookupSeason_create req caller now st inv id se h1
    have h2' := h2
    rw [show applyOp (Op.createSeason req caller now) st =
      (create_registration_season req caller now st).2 from rfl] at h2'
    rw [hunch] at h2'
    have hse : se' = se := by
      cases h2'
      rfl
    subst hse
    refine ⟨Or.inl rfl, fun h => h, fun h => Or.inl h, fun h => h, ?_⟩
    intro hlt heq
    omega
  · have hopF : isCreateSeasonOp op = false := by
      revert hop
      cases isCreateSeasonOp op <;> simp
    have hstep := seasonStep_applyOp op st inv hopF
    obtain ⟨f, hsf, hlk⟩ := lookupSeason_step st _ hstep id se h1
    have hse : se' = f se := by
      rw [h2] at hlk
      cases hlk
      rfl
    subst hse
    have hmem := (lookupSeason_spec id st se h1).1
    refine ⟨?_, hsf.deact_stable se hmem, hsf.comp_stable se hmem,
      hsf.no_new_active se hmem, ?_⟩
    · cases hstat : (f se).status with
      | Active =>
        left
        rw [hsf.no_new_active se hmem hstat]
      | Completed => exact Or.inr (Or.inl rfl)
      | Deactivated => exact Or.inr (Or.inr rfl)
    · intro hlt hfull
      rcases hsf.full_comp se hmem hfull with hone | htwo
      · omega
      · exact htwo

/-! ## Reachability of the concrete scenario states -/

theorem reachable_exStSeason1 : Reachable exStSeason1 :=
  Reachable.step _ _ (Reachable.init 0)

theorem reachable_exStCompleted : Reachable exStCompleted :=
  Reachable.step _ _ reachable_exStSeason1

theorem reachable_exStSeason10 : Reachable exStSeason10 :=
  Reachable.step _ _ (Reachable.init 0)

theorem reachable_exStAlice : Reachable exStAlice :=
  Reachable.step _ _ reachable_exStSeason10

theorem reachable_exStStale : Reachable exStStale :=
  Reachable.step _ _ reachable_exStAlice

/-! ## Claims -/

/-- C1 (counterexample to the claim as stated): the claim says every operation
other than `create_registration_season` either leaves season statuses unchanged
or moves an ACTIVE season to Completed/Deactivated.  In the reachable state
`exStCompleted`, season 1 is Completed, yet `deactivate_season` (which never
checks the current status) moves it to Deactivated — a status change of a
non-Active season. -/
theorem c1_counterexample_completed_season_deactivated :
    Reachable exStCompleted ∧
    isCreateSeasonOp (Op.deactivateSeason 1 0) = false ∧
    (lookupSeason 1 exStCompleted).map (fun se => se.status) =
      some SeasonStatus.Completed ∧
    (lookupSeason 1 (applyOp (Op.deactivateSeason 1 0) exStCompleted)).map
      (fun se => se.status) = some SeasonStatus.Deactivated ∧
    SeasonStatus.Completed ≠ SeasonStatus.Active ∧
    SeasonStatus.Deactivated ≠ SeasonStatus.Completed :=
  ⟨reachable_exStCompleted, by decide, by decide, by decide, by decide, by decide⟩

/-- C1 (amended): at most one season is Active in every reachable state;
`create_registration_season` rejects, leaving the state unchanged, whenever a
season is Active; season ids are assigned from 1 counting up and never reused
(ids are distinct and below the monotone `next_season_id`, and a successful
creation hands out exactly `next_season_id`, then increments it); and every
operation other than `create_registration_season` leaves each season's status
unchanged or sets it to Completed or Deactivated — never to Active.  (The
original claim said only an Active season's status can change; `deactivate_season`
also moves Completed seasons to Deactivated, see the counterexample.) -/
theorem c1_at_most_one_active_season :
    (∀ st, Reachable st → activeCount st.seasons ≤ 1) ∧
    (∀ req caller now st, has_active_season st = true →
      (∀ v, (create_registration_season req caller now st).1 ≠ .ok v) ∧
      (create_registration_season req caller now st).2 = st) ∧
    (∀ st, Reachable st →
      1 ≤ st.next_season_id ∧
      (st.seasons.map (fun se => se.season_id)).Nodup ∧
      ∀ se ∈ st.seasons, 1 ≤ se.season_id ∧ se.season_id < st.next_season_id) ∧
    (∀ req caller now st v,
      (create_registration_season req caller now st).1 = .ok v →
      v = st.next_season_id ∧
      (create_registration_season req caller now st).2.next_season_id = v + 1) ∧
    (∀ st op, Reachable st → isCreateSeasonOp op = false →
      ∀ id se se', lookupSeason id st = some se →
        lookupSeason id (applyOp op st) = some se' →
        se'.status = se.status ∨ se'.status = SeasonStatus.Completed ∨
          se'.status = SeasonStatus.Deactivated) := by
  refine ⟨?_, ?_, ?_, ?_, ?_⟩
  · intro st hr
    exact (reachable_seasonInv st hr).one_active
  · intro req caller now st h
    exact create_rejects_when_active req caller now st h
  · intro st hr
    have inv := reachable_seasonInv st hr
    exact ⟨inv.next_pos, inv.ids_nodup, inv.ids_range⟩
  · intro req caller now st v h
    exact create_ok_id req caller now st v h
  · intro st op hr _ id se se' h1 h2
    exact (lookup_step_status st op id se se' hr h1 h2).1

/-- C1 witness: the amended theorem applied at concrete reachable inputs. -/
theorem c1_witness :
    activeCount exStSeason1.seasons ≤ 1 ∧
    (∀ v, (create_registration_season exSeasonCap10 0 5 exStSeason1).1 ≠ .ok v) ∧
    (create_registration_season exSeasonCap10 0 5 exStSeason1).2 = exStSeason1 :=
  ⟨c1_at_most_one_active_season.1 exStSeason1 reachable_exStSeason1,
   (c1_at_most_one_active_season.2.1 exSeasonCap10 0 5 exStSeason1 (by decide)).1,
   (c1_at_most_one_active_season.2.1 exSeasonCap10 0 5 exStSeason1 (by decide)).2⟩

/-- C2 (confirmed): in every reachable state `registered_count ≤ total_allowed`
for every season; an operation that raises a season's count to its capacity
leaves that season Completed; and the allocation searches
(`find_applicable_season` for registration, the Active scan for gift/admin
creation) never select a Completed — or any non-Active or full — season, so
subsequent allocations from a filled season fail. -/
theorem c2_capacity_invariant :
    (∀ st, Reachable st → ∀ se ∈ st.seasons,
      se.registered_count ≤ se.total_allowed) ∧
    (∀ st op id se se', Reachable st →
      lookupSeason id st = some se →
      lookupSeason id (applyOp op st) = some se' →
      se.registered_count < se.total_allowed →
      se'.registered_count = se'.total_allowed →
      se'.status = SeasonStatus.Completed) ∧
    (∀ st name sid se, find_applicable_season name st = some (sid, se) →
      se.status = SeasonStatus.Active ∧ se.registered_count < se.total_allowed) ∧
    (∀ st se, findActiveSeason st = some se → se.status = SeasonStatus.Active) := by
  refine ⟨?_, ?_, ?_, ?_⟩
  · intro st hr se hmem
    exact (reachable_seasonInv st hr).count_le se hmem
  · intro st op id se se' hr h1 h2 hlt hfull
    exact (lookup_step_status st op id se se' hr h1 h2).2.2.2.2 hlt hfull
  · intro st name sid se h
    have hs := find_applicable_spec name st sid se h
    exact ⟨hs.2.2.1, hs.2.2.2⟩
  · intro st se h
    exact (findActiveSeason_spec st se h).2

/-- C2 witness: the theorem applied at the concrete filled season — the count
stays within capacity, and the registration that filled it left it Completed. -/
theorem c2_witness :
    exSeasonCompleted1.registered_count ≤ exSeasonCompleted1.total_allowed ∧
    exSeasonCompleted1.status = SeasonStatus.Completed ∧
    (exSeasonActive0.status = SeasonStatus.Active ∧
      exSeasonActive0.registered_count < exSeasonActive0.total_allowed) :=
  ⟨c2_capacity_invariant.1 exStCompleted reachable_exStCompleted exSeasonCompleted1
    (lookupSeason_spec 1 exStCompleted exSeasonCompleted1 (by decide)).1,
   c2_capacity_invariant.2.1 exStSeason1 (Op.register exReqHello 1 10 (.ok 99)) 1
     exSeasonActive0 exSeasonCompleted1 reachable_exStSeason1
     (by decide) (by decide) (by decide) (by decide),
   c2_capacity_invariant.2.2.1 exStSeason1 "hello" 1 exSeasonActive0 (by decide)⟩

/-- C3 (code bug): the uniqueness/price part of the claim holds — only Active
seasons within the length band and with remaining capacity are considered —
but the promised deterministic lowest-id tie-break does not: `min_by_key` over
`HashMap` iteration picks the first minimum in iteration order.  The two states
below hold the SAME season set (a permutation), both seasons eligible at the
same lowest price, and the function returns season 2 for one order and season 1
for the other, so the result is not determined by the season set and in
particular is not always the lowest id. -/
theorem c3_tie_break_order_dependent :
    List.Perm stOrderA.seasons stOrderB.seasons ∧
    seasonEligible ("hello".length) (cexSeason 1 7) = true ∧
    seasonEligible ("hello".length) (cexSeason 2 7) = true ∧
    (cexSeason 1 7).price_icp = (cexSeason 2 7).price_icp ∧
    (find_applicable_season "hello" stOrderA).map (fun p => p.1) = some 2 ∧
    (find_applicable_season "hello" stOrderB).map (fun p => p.1) = some 1 ∧
    (2 : Nat) ≠ 1 :=
  ⟨by decide, by decide, by decide, by decide, by decide, by decide, by decide⟩

/-- C6 (code bug): in the reachable state `exStStale` — "alice" registered by
identity 1, expired, then re-registered by identity 2 — the wallet index still
maps identity 1 to "alice" while the record's owner is identity 2, so the
claimed index/store coupling (every index entry's record owner equals that
identity) fails: re-registration overwrites the record without cleaning the
previous owner's index entry. -/
theorem c6_wallet_index_stale_owner :
    Reachable exStStale ∧
    alistLookup 1 exStStale.wallet_to_domain = some "alice" ∧
    (alistLookup "alice" exStStale.domains).map (fun rec => rec.owner) = some 2 ∧
    ¬ WalletOwnerInv exStStale := by
  refine ⟨reachable_exStStale, by decide, by decide, ?_⟩
  intro hinv
  obtain ⟨rec, hrec, hown⟩ := hinv 1 "alice" (by decide)
  have h2 : (alistLookup "alice" exStStale.domains).map (fun r => r.owner) =
      some 2 := by decide
  rw [hrec] at h2
  have h3 : rec.owner = 2 := Option.some.inj h2
  rw [hown] at h3
  exact absurd h3 (by decide)

/-- C7 (counterexample to the claim as stated): Completed is claimed to be
terminal, but `deactivate_season` sets Deactivated without checking the current
status, so the Completed season 1 of the reachable state `exStCompleted` moves
to Deactivated. -/
theorem c7_counterexample_completed_then_deactivated :
    Reachable exStCompleted ∧
    lookupSeason 1 exStCompleted = some exSeasonCompleted1 ∧
    exSeasonCompleted1.status = SeasonStatus.Completed ∧
    (deactivate_season 1 0 exStCompleted).1 = .ok () ∧
    (lookupSeason 1 (deactivate_season 1 0 exStCompleted).2).map
      (fun se => se.status) = some SeasonStatus.Deactivated :=
  ⟨reachable_exStCompleted, by decide, by decide, by decide, by decide⟩

/-- C7 (amended): season transitions are Active→Completed (automatic on
reaching capacity) and any-status→Deactivated by `deactivate_season` — in
particular Completed→Deactivated is possible.  Deactivated is terminal, a
Completed season can only stay Completed or become Deactivated, and no season
ever returns to Active. -/
theorem c7_terminal_statuses_amended (st : RegistryState) (op : Op) (id : Nat)
    (se se' : RegistrationSeason) (hr : Reachable st)
    (h1 : lookupSeason id st = some se)
    (h2 : lookupSeason id (applyOp op st) = some se') :
    (se.status = SeasonStatus.Deactivated → se'.status = SeasonStatus.Deactivated) ∧
    (se.status = SeasonStatus.Completed → se'.status = SeasonStatus.Completed ∨
      se'.status = SeasonStatus.Deactivated) ∧
    (se'.status = SeasonStatus.Active → se.status = SeasonStatus.Active) := by
  have hs := lookup_step_status st op id se se' hr h1 h2
  exact ⟨hs.2.1, hs.2.2.1, hs.2.2.2.1⟩

/-- C7 witness: the amended theorem applied at the concrete Completed season
across a fee-setting operation. -/
theorem c7_witness :
    (exSeasonCompleted1.status = SeasonStatus.Deactivated →
      exSeasonCompleted1.status = SeasonStatus.Deactivated) ∧
    (exSeasonCompleted1.status = SeasonStatus.Completed →
      exSeasonCompleted1.status = SeasonStatus.Completed ∨
      exSeasonCompleted1.status = SeasonStatus.Deactivated) ∧
    (exSeasonCompleted1.status = SeasonStatus.Active →
      exSeasonCompleted1.status = SeasonStatus.Active) :=
  c7_terminal_statuses_amended exStCompleted (Op.setFee 5 0) 1 exSeasonCompleted1
    exSeasonCompleted1 reachable_exStCompleted (by decide) (by decide)

/-- C4 (confirmed): any successful `register_domain` at host time `now` stores
a record with `registration_time = now` and
`expiration_time = now + 365 days (ns)`, and `get_domain_info` queried at that
time reports it Active with exactly that expiration. -/
theorem c4_register_then_get_info (req : RegistrationRequest) (caller : Principal)
    (now : Nat) (prov : Except String Principal) (st : RegistryState)
    (r : RegOk) (st' : RegistryState)
    (h : register_domain req caller now prov st = (.ok r, st')) :
    ∃ rec info,
      alistLookup req.domain_name st'.domains = some rec ∧
      get_domain_info req.domain_name now st' = some info ∧
      rec.registration_time = now ∧
      rec.expiration_time = rec.registration_time + yearNs ∧
      info.expiration_time = rec.expiration_time ∧
      info.status = DomainStatus.Active := by
  obtain ⟨cid, sid, hprov, hcid, hdom, hwal, hrest⟩ :=
    register_ok_shape req caller now prov st r st' h
  have hlk : alistLookup req.domain_name st'.domains =
      some (regRecord req caller now cid (is_admin caller st) sid) := by
    rw [hdom]
    exact alistLookup_insert_self _ _ _
  have hlt : now < now + yearNs := by
    have hy : 0 < yearNs := by unfold yearNs; omega
    omega
  refine ⟨regRecord req caller now cid (is_admin caller st) sid,
    { name := req.domain_name
      owner := caller
      administrator := req.administrator
      operator := req.operator
      canister_id := cid
      expiration_time := now + yearNs
      mcp_endpoint := "https://mcp.ctx.xyz/" ++ req.domain_name
      status := if now < now + yearNs then DomainStatus.Active
        else DomainStatus.Expired
      was_gifted := is_admin caller st },
    hlk, ?_, rfl, rfl, rfl, ?_⟩
  · unfold get_domain_info
    rw [hlk]
    rfl
  · show (if now < now + yearNs then DomainStatus.Active else DomainStatus.Expired) =
      DomainStatus.Active
    rw [if_pos hlt]

/-- C4 witness: the theorem applied to the concrete successful registration of
"hello" at time 10. -/
theorem c4_witness :
    ∃ rec info,
      alistLookup exReqHello.domain_name exStCompleted.domains = some rec ∧
      get_domain_info exReqHello.domain_name 10 exStCompleted = some info ∧
      rec.registration_time = 10 ∧
      rec.expiration_time = rec.registration_time + yearNs ∧
      info.expiration_time = rec.expiration_time ∧
      info.status = DomainStatus.Active :=
  c4_register_then_get_info exReqHello 1 10 (.ok 99) exStSeason1
    { canister_id := 99, fee_e8s := 700000000 } exStCompleted (by decide)

/-- C5 (confirmed): whenever `register_domain` returns an error — including a
provisioning failure after the season slot was reserved — the resulting state
is exactly the pre-call state: every store (records, wallet index, seasons,
allowlist, admin policy) is unchanged, the reserved slot having been released
by the rollback. -/
theorem c5_register_error_rolls_back (req : RegistrationRequest)
    (caller : Principal) (now : Nat) (prov : Except String Principal)
    (st : RegistryState) (e : String)
    (h : (register_domain req caller now prov st).1 = .error e) :
    (register_domain req caller now prov st).2 = st :=
  register_error_state req caller now prov st e h

/-- C5 witness: a provisioning failure after the slot of the only season was
reserved leaves the state exactly as before the call. -/
theorem c5_witness :
    (register_domain exReqHello 1 10 (.error "factory down") exStSeason1).1 =
      .error "factory down" ∧
    (register_domain exReqHello 1 10 (.error "factory down") exStSeason1).2 =
      exStSeason1 :=
  ⟨by decide,
   c5_register_error_rolls_back exReqHello 1 10 (.error "factory down")
     exStSeason1 "factory down" (by decide)⟩

/-- C9 (confirmed): an admin registering a valid, unreserved, available name
succeeds with fee 0, consumes no season slot (the whole season ledger is
unchanged), and the stored record has `was_gifted = true` and no origin season
id. -/
theorem c9_admin_registration_frame (req : RegistrationRequest)
    (caller : Principal) (now : Nat) (cid : Principal) (st : RegistryState)
    (hadm : is_admin caller st = true)
    (hvalid : is_valid_domain_name req.domain_name = true)
    (hres : is_reserved_name req.domain_name st = false)
    (havail : domain_is_available req.domain_name now st = true) :
    (register_domain req caller now (.ok cid) st).1 =
      .ok { canister_id := cid, fee_e8s := 0 } ∧
    (register_domain req caller now (.ok cid) st).2.seasons = st.seasons ∧
    alistLookup req.domain_name
      (register_domain req caller now (.ok cid) st).2.domains =
      some (regRecord req caller now cid true none) ∧
    (regRecord req caller now cid true none).was_gifted = true ∧
    (regRecord req caller now cid true none).registration_season_id = none := by
  rw [register_admin_ok req caller now cid st hadm hvalid hres havail]
  refine ⟨rfl, rfl, ?_, rfl, rfl⟩
  exact alistLookup_insert_self _ _ _

/-- C9 witness: admin 0 registers "hello" at time 3 while a season is Active;
fee 0, ledger untouched, gifted record without season id. -/
theorem c9_witness :
    (register_domain exReqHello 0 3 (.ok 77) exStSeason1).1 =
      .ok { canister_id := 77, fee_e8s := 0 } ∧
    (register_domain exReqHello 0 3 (.ok 77) exStSeason1).2.seasons =
      exStSeason1.seasons ∧
    alistLookup exReqHello.domain_name
      (register_domain exReqHello 0 3 (.ok 77) exStSeason1).2.domains =
      some (regRecord exReqHello 0 3 77 true none) ∧
    (regRecord exReqHello 0 3 77 true none).was_gifted = true ∧
    (regRecord exReqHello 0 3 77 true none).registration_season_id = none :=
  c9_admin_registration_frame exReqHello 0 3 77 exStSeason1
    (by decide) (by decide) (by decide) (by decide)

/-- C10 (confirmed): `get_registration_fee` is total (its type returns a plain
number, never an error) and returns 0 both for names failing format validation,
for reserved names, and for names with no applicable season — the same value an
admin registration is charged, so a 0 quote does not distinguish an
unregistrable name from a free one. -/
theorem c10_fee_quote_total_zero (name : String) (st : RegistryState) :
    (is_valid_domain_name name = false → get_registration_fee name st = 0) ∧
    (is_reserved_name name st = true → get_registration_fee name st = 0) ∧
    (find_applicable_season name st = none → get_registration_fee name st = 0) := by
  refine ⟨?_, ?_, ?_⟩
  · intro h
    unfold get_registration_fee
    simp [h]
  · intro h
    unfold get_registration_fee
    simp [h]
  · intro h
    unfold get_registration_fee calculate_registration_fee
    simp [h]

/-- C10 witness: the three zero cases at concrete inputs — a malformed name, a
reserved name, and a well-formed name with no applicable season. -/
theorem c10_witness :
    (is_valid_domain_name "-bad-" = false ∧
      get_registration_fee "-bad-" (initState 0) = 0) ∧
    (is_reserved_name "icp" (initState 0) = true ∧
      get_registration_fee "icp" (initState 0) = 0) ∧
    (find_applicable_season "hello" (initState 0) = none ∧
      get_registration_fee "hello" (initState 0) = 0) :=
  ⟨⟨by decide, (c10_fee_quote_total_zero "-bad-" (initState 0)).1 (by decide)⟩,
   ⟨by decide, (c10_fee_quote_total_zero "icp" (initState 0)).2.1 (by decide)⟩,
   ⟨by decide, (c10_fee_quote_total_zero "hello" (initState 0)).2.2 (by decide)⟩⟩

/-- C8 (counterexample to the claim as stated): the claim makes a name with
`expiration_time <= now` available for re-registration, but the availability
check in the source is the strict `expiration_time < current_time`.  In the
reachable state `exStAlice`, "alice" expires exactly at `yearNs`: queried at
that instant it is reported Expired, yet re-registration by another identity —
every other precondition met — fails with "Domain name is not available" and
changes nothing. -/
theorem c8_counterexample_boundary_expiration :
    Reachable exStAlice ∧
    (alistLookup "alice" exStAlice.domains).map (fun r => r.expiration_time) =
      some yearNs ∧
    (get_domain_info "alice" yearNs exStAlice).map (fun i => i.status) =
      some DomainStatus.Expired ∧
    (register_domain exReqAlice2 2 yearNs (.ok 98) exStAlice).1 =
      .error "Domain name is not available" :=
  ⟨reachable_exStAlice, by decide, by decide, by decide⟩

/-- C8 (amended): a stored record with `expiration_time <= now` is reported
Expired, but it becomes available for re-registration only once
`expiration_time < now` (strictly).  Under that strict bound — with the other
admission checks met and either an admin caller or an applicable season — a
re-registration succeeds and overwrites the record with a fresh one
(`registration_time = now`), and no operation ever deletes a stored record:
the old record remains present until overwritten. -/
theorem c8_expired_reregistration_amended :
    (∀ st name now rec info, alistLookup name st.domains = some rec →
      rec.expiration_time ≤ now →
      get_domain_info name now st = some info →
      info.status = DomainStatus.Expired) ∧
    (∀ st req caller now cid rec, Reachable st →
      alistLookup req.domain_name st.domains = some rec →
      rec.expiration_time < now →
      is_valid_domain_name req.domain_name = true →
      is_reserved_name req.domain_name st = false →
      can_register_short_domain req.domain_name caller st = true →
      (is_admin caller st = true ∨
        (is_admin caller st = false ∧
          wallet_already_has_domain caller st = none ∧
          find_applicable_season req.domain_name st ≠ none)) →
      ∃ r st' rec', register_domain req caller now (.ok cid) st = (.ok r, st') ∧
        alistLookup req.domain_name st'.domains = some rec' ∧
        rec'.registration_time = now ∧
        rec'.expiration_time = now + yearNs) ∧
    (∀ op st name, (alistLookup name st.domains).isSome = true →
      (alistLookup name (applyOp op st).domains).isSome = true) := by
  refine ⟨?_, ?_, ?_⟩
  · intro st name now rec info hrec hexp hinfo
    unfold get_domain_info at hinfo
    rw [hrec] at hinfo
    cases hinfo
    show (if now < rec.expiration_time then DomainStatus.Active
      else DomainStatus.Expired) = DomainStatus.Expired
    rw [if_neg (by omega)]
  · intro st req caller now cid rec hr hrec hexp hvalid hres hshort hcase
    have havail : domain_is_available req.domain_name now st = true := by
      unfold domain_is_available
      rw [hrec]
      show decide (rec.expiration_time < now) = true
      exact decide_eq_true hexp
    rcases hcase with hadm | ⟨hadmF, hwallet, hfind⟩
    · refine ⟨_, _, regRecord req caller now cid true none,
        register_admin_ok req caller now cid st hadm hvalid hres havail, ?_, rfl, rfl⟩
      exact alistLookup_insert_self _ _ _
    · rcases hfa : find_applicable_season req.domain_name st with _ | p
      · exact absurd hfa hfind
      · obtain ⟨sid, season⟩ := p
        have hspec := find_applicable_spec req.domain_name st sid season hfa
        have inv := reachable_seasonInv st hr
        have hlook : lookupSeason sid st = some season := by
          rw [← hspec.2.1]
          exact lookupSeason_of_mem st season inv.ids_nodup hspec.1
        refine ⟨_, _, regRecord req caller now cid false (some sid),
          register_nonadmin_ok req caller now cid st sid season hadmF hvalid hres
            hshort hwallet havail hfa hlook hspec.2.2.2, ?_, rfl, rfl⟩
        exact alistLookup_insert_self _ _ _
  · intro op st name h
    exact domains_preserved op st name h

/-- C8 witness: one tick past the expiration instant, identity 2 successfully
re-registers "alice" over identity 1's expired record. -/
theorem c8_witness :
    ∃ r st' rec',
      register_domain exReqAlice2 2 (yearNs + 1) (.ok 98) exStAlice = (.ok r, st') ∧
      alistLookup exReqAlice2.domain_name st'.domains = some rec' ∧
      rec'.registration_time = yearNs + 1 ∧
      rec'.expiration_time = (yearNs + 1) + yearNs :=
  c8_expired_reregistration_amended.2.1 exStAlice exReqAlice2 2 (yearNs + 1) 98
    exRecAlice reachable_exStAlice (by decide) (by decide) (by decide) (by decide)
    (by decide) (Or.inr ⟨by decide, by decide, by decide⟩)
